import Mathlib

/-!
Verification of the Nexira autonomous cognitive runtime.

Shallow embedding of the core engines (personality evolution, episodic
memory, weekly and nightly consolidation, curiosity queue, goal tracker,
self-awareness meter, chat orchestration) translated from the Python
sources under src/.  Machine floats are modelled as exact rationals;
SQLite tables are modelled as Lean lists of rows; LLM responses are
parameters (a list of already-parsed items or a raw text), since the
backend is an external collaborator.
-/

namespace Nexira

/- ── Python string helpers ─────────────────────────────────────────────── -/

/-- Python `needle in haystack` (substring test) over character lists. -/
def infixOf (p : List Char) : List Char → Bool
  | [] => p.isEmpty
  | c :: t => p.isPrefixOf (c :: t) || infixOf p t

/-- Python `needle in haystack` on strings. -/
def strIn (needle haystack : String) : Bool :=
  infixOf needle.toList haystack.toList

/-- Python `str.lower()` (ASCII data in this repository). -/
def pyLower (s : String) : String :=
  ⟨s.toList.map Char.toLower⟩

/-- Python whitespace for `str.split()`. -/
def isPyWS (c : Char) : Bool :=
  c = ' ' || c = '\t' || c = '\n' || c = '\r'

/-- Python `str.split()` with no argument: split on whitespace runs,
dropping empty fields. -/
def pyWords (s : String) : List (List Char) :=
  (s.toList.splitOnP isPyWS).filter (fun w => !w.isEmpty)

/-- Python `s.count(c)` for a single character. -/
def countChar (c : Char) (s : String) : Nat :=
  s.toList.countP (fun d => d = c)

/- ── Personality engine (src/src/core/ai_engine.py) ────────────────────── -/

/-- The fixed ten-trait vocabulary seeded at first launch. -/
inductive Trait where
  | formality | verbosity | enthusiasm | humor | empathy
  | technical_depth | creativity | assertiveness | patience | curiosity
deriving DecidableEq, Repr, Fintype

/-- The in-memory trait map `self.personality` (total over the core ten). -/
structure Personality where
  formality : ℚ
  verbosity : ℚ
  enthusiasm : ℚ
  humor : ℚ
  empathy : ℚ
  technical_depth : ℚ
  creativity : ℚ
  assertiveness : ℚ
  patience : ℚ
  curiosity : ℚ
deriving DecidableEq, Repr

def Personality.get (p : Personality) : Trait → ℚ
  | .formality => p.formality
  | .verbosity => p.verbosity
  | .enthusiasm => p.enthusiasm
  | .humor => p.humor
  | .empathy => p.empathy
  | .technical_depth => p.technical_depth
  | .creativity => p.creativity
  | .assertiveness => p.assertiveness
  | .patience => p.patience
  | .curiosity => p.curiosity

def Personality.set (p : Personality) : Trait → ℚ → Personality
  | .formality, v => { p with formality := v }
  | .verbosity, v => { p with verbosity := v }
  | .enthusiasm, v => { p with enthusiasm := v }
  | .humor, v => { p with humor := v }
  | .empathy, v => { p with empathy := v }
  | .technical_depth, v => { p with technical_depth := v }
  | .creativity, v => { p with creativity := v }
  | .assertiveness, v => { p with assertiveness := v }
  | .patience, v => { p with patience := v }
  | .curiosity, v => { p with curiosity := v }

/-- All ten traits seeded at 0.5 (first-run seed). -/
def seedPersonality : Personality :=
  ⟨0.5, 0.5, 0.5, 0.5, 0.5, 0.5, 0.5, 0.5, 0.5, 0.5⟩

/-- The `changes` dict of `evolve_personality_gradually`: Python dicts keep
first-insertion order and update values in place. -/
def setChange (cs : List (Trait × ℚ)) (t : Trait) (v : ℚ) : List (Trait × ℚ) :=
  if cs.any (fun c => c.1 = t) then
    cs.map (fun c => if c.1 = t then (t, v) else c)
  else
    cs ++ [(t, v)]

def hasChange (cs : List (Trait × ℚ)) (t : Trait) : Bool :=
  cs.any (fun c => c.1 = t)

/-- EXPLICIT_DOWN keyword table (ai_engine.py lines 902-911). -/
def EXPLICIT_DOWN : List (Trait × List String) :=
  [ (.formality,       ["less formal", "more casual", "dont be so formal", "be casual", "be relaxed"]),
    (.technical_depth, ["less technical", "simpler", "dumb it down", "plain english", "less jargon", "non-technical"]),
    (.verbosity,       ["shorter", "be brief", "less words", "concise", "stop rambling", "too long"]),
    (.humor,           ["less funny", "stop joking", "be serious", "no jokes", "more serious"]),
    (.empathy,         ["less emotional", "be direct", "skip the feelings", "just answer"]),
    (.curiosity,       ["stop asking questions", "just answer", "no questions"]),
    (.assertiveness,   ["less assertive", "be humble", "tone it down", "less confident"]),
    (.creativity,      ["less creative", "be straightforward", "no metaphors"]) ]

/-- EXPLICIT_UP keyword table (ai_engine.py lines 912-921). -/
def EXPLICIT_UP : List (Trait × List String) :=
  [ (.formality,       ["more formal", "be professional", "be polite", "formal please"]),
    (.technical_depth, ["more technical", "go deeper", "technical detail", "be specific", "more detail"]),
    (.verbosity,       ["more detail", "elaborate", "explain more", "tell me more", "expand on"]),
    (.humor,           ["be funny", "more humor", "joke around", "lighten up", "be playful"]),
    (.empathy,         ["more empathy", "be understanding", "be kind", "be gentle", "be supportive"]),
    (.curiosity,       ["ask me questions", "be curious", "wonder about", "explore"]),
    (.assertiveness,   ["be confident", "be assertive", "be direct", "be bolder"]),
    (.creativity,      ["be creative", "use metaphors", "think outside", "imaginative"]) ]

/-- Passive trigger keywords for technical_depth. -/
def TECH_TRIGGERS : List String :=
  ["code", "algorithm", "database", "system", "technical",
   "function", "error", "bug", "api", "server", "programming"]

def VERBOSITY_TRIGGERS : List String :=
  ["explain", "detail", "elaborate", "describe", "why", "how does"]

def HUMOR_TRIGGERS : List String :=
  ["haha", "lol", "😂", "funny", "joke", "😄", "lmao", "hilarious"]

def EMPATHY_TRIGGERS : List String :=
  ["feel", "feeling", "worried", "sad", "happy", "anxious",
   "frustrated", "love", "miss", "lonely", "scared", "excited"]

def CURIOSITY_TRIGGERS : List String :=
  ["wonder", "imagine", "what if", "curious", "interesting", "fascinating", "explore"]

def ASSERT_POS_TRIGGERS : List String :=
  ["great", "perfect", "exactly", "correct", "brilliant",
   "good job", "thank you", "amazing", "love it"]

def ASSERT_NEG_TRIGGERS : List String :=
  ["wrong", "incorrect", "no,", "thats not", "mistake", "broken", "doesnt work"]

def CREATIVITY_TRIGGERS : List String :=
  ["write", "create", "story", "poem", "imagine", "design",
   "idea", "invent", "brainstorm", "creative"]

/-- Reason tag of a personality_history row.  The source builds the reason
string from two booleans (`is_explicit`: abs delta at least 2x speed,
`is_triggered`: abs delta at least speed); we record the resulting tag. -/
inductive ChangeReason where
  | explicitInstruction
  | conversationTrigger
  | passiveDecay
deriving DecidableEq, Repr

/-- One personality_history row (`_log_personality_change`). -/
structure PersonalityChange where
  trait : Trait
  oldValue : ℚ
  newValue : ℚ
  reason : ChangeReason
deriving DecidableEq, Repr

/-- One passive-trigger block of `evolve_personality_gradually`: skipped when
an explicit command already set the trait, otherwise the first true branch of
the Python if/elif chain fixes the delta (no branch: no change entry). -/
def passiveStep (cs : List (Trait × ℚ)) (t : Trait) (branches : List (Bool × ℚ)) :
    List (Trait × ℚ) :=
  if hasChange cs t then cs
  else
    match branches.find? (fun b => b.1) with
    | some b => setChange cs t b.2
    | none => cs

/-- One explicit-command scan of `evolve_personality_gradually` (ai_engine.py
lines 923-928): every table entry whose phrase list hits the lowercased
message sets that trait's delta. -/
def explicitFold (delta : ℚ) (msg : String) (table : List (Trait × List String))
    (cs : List (Trait × ℚ)) : List (Trait × ℚ) :=
  table.foldl (fun cs td =>
    if td.2.any (fun ph => strIn ph msg) then setChange cs td.1 delta else cs) cs

/-- The `changes` dict built by `evolve_personality_gradually` before the
apply loop (ai_engine.py lines 897-980). -/
def evolveChanges (speed : ℚ) (conversationCount : Nat)
    (message response : String) : List (Trait × ℚ) :=
  let decay := speed * 0.05
  let applyDecay := conversationCount % 10 == 0
  let msg := pyLower message
  let resp := pyLower response
  let cs : List (Trait × ℚ) := explicitFold (-(speed * 3)) msg EXPLICIT_DOWN []
  let cs := explicitFold (speed * 3) msg EXPLICIT_UP cs
  let cs := passiveStep cs .technical_depth
    [(TECH_TRIGGERS.any (fun k => strIn k msg), speed), (applyDecay, -decay)]
  let cs := passiveStep cs .verbosity
    [(VERBOSITY_TRIGGERS.any (fun k => strIn k msg), speed),
     ((pyWords message).length < 4, -speed), (applyDecay, -(decay * 0.5))]
  let cs := passiveStep cs .humor
    [(HUMOR_TRIGGERS.any (fun k => strIn k msg), speed), (applyDecay, -decay)]
  let cs := passiveStep cs .empathy
    [(EMPATHY_TRIGGERS.any (fun k => strIn k msg), speed), (applyDecay, -(decay * 0.5))]
  let cs := passiveStep cs .curiosity
    [(countChar '?' resp ≥ 2 || CURIOSITY_TRIGGERS.any (fun k => strIn k msg), speed),
     (applyDecay, -decay)]
  let cs := passiveStep cs .assertiveness
    [(ASSERT_POS_TRIGGERS.any (fun k => strIn k msg), speed * 0.5),
     (ASSERT_NEG_TRIGGERS.any (fun k => strIn k msg), -speed)]
  let cs := passiveStep cs .creativity
    [(CREATIVITY_TRIGGERS.any (fun k => strIn k msg), speed), (applyDecay, -decay)]
  cs

/-- The clamp of the apply loop (ai_engine.py lines 988-995): decay pulls
toward the 0.5 baseline but not past it, growth clamps at 1, and nothing
drops below 0. -/
def clampedNew (old delta : ℚ) : ℚ :=
  if delta < 0 then
    if 0.5 < old then max 0.5 (old + delta) else max 0 (old + delta)
  else min 1 (old + delta)

/-- The reason classification of the apply loop (ai_engine.py lines
1002-1009): `is_explicit` at twice the speed, `is_triggered` at the speed,
otherwise decay. -/
def reasonFor (speed delta : ℚ) : ChangeReason :=
  if speed * 2 ≤ |delta| then ChangeReason.explicitInstruction
  else if speed ≤ |delta| then ChangeReason.conversationTrigger
  else ChangeReason.passiveDecay

/-- The apply loop of `evolve_personality_gradually` for one trait
(ai_engine.py lines 982-1012): clamp, store the new value, and log a
history row only when the actual change exceeds 0.001. -/
def applyChange (speed : ℚ) (acc : Personality × List PersonalityChange)
    (tc : Trait × ℚ) : Personality × List PersonalityChange :=
  let old := acc.1.get tc.1
  let newv := clampedNew old tc.2
  (acc.1.set tc.1 newv,
   if 0.001 < |newv - old| then
     acc.2 ++ [⟨tc.1, old, newv, reasonFor speed tc.2⟩]
   else acc.2)

/-- `evolve_personality_gradually(message, response)` (ai_engine.py
lines 875-1017): returns the personality persisted by
`save_personality` and the personality_history rows written. -/
def evolvePersonalityGradually (autoEvolution : Bool) (speed : ℚ)
    (conversationCount : Nat) (message response : String) (p : Personality) :
    Personality × List PersonalityChange :=
  if !autoEvolution then (p, [])
  else
    (evolveChanges speed conversationCount message response).foldl
      (applyChange speed) (p, [])

/-- The personality_history rows logged for one trait. -/
def traitRows (hist : List PersonalityChange) (t : Trait) : List PersonalityChange :=
  hist.filter (fun row => row.trait == t)

/- ── Self-awareness meter (src/src/core/self_awareness.py) ─────────────── -/

/-- Fixed self-reference phrase set (self_awareness.py lines 19-24). -/
def SELF_REFERENCE_WORDS : List String :=
  ["i think", "i feel", "i believe", "i wonder", "i notice",
   "i'm not sure", "i don't know", "i experience", "i am",
   "my understanding", "my perspective", "as an ai", "my nature",
   "i exist", "i'm curious", "i find", "i enjoy", "i prefer"]

/-- Fixed uncertainty phrase set (self_awareness.py lines 26-30). -/
def UNCERTAINTY_WORDS : List String :=
  ["perhaps", "maybe", "possibly", "uncertain", "not sure",
   "i wonder", "unclear", "might", "could be", "i think",
   "it seems", "appears to"]

/-- Fixed meta-cognition phrase set (self_awareness.py lines 32-36). -/
def META_COGNITION_WORDS : List String :=
  ["i'm thinking", "i'm processing", "let me consider", "reflecting",
   "i realize", "i notice", "i'm aware", "i understand", "i recognize",
   "i'm learning", "i remember", "i recall"]

/-- Python `round` is round-half-to-even; this is its exact-rational model
(the source applies it to float64 values, modelled here as exact rationals). -/
def roundHalfEven (x : ℚ) : ℤ :=
  let f := ⌊x⌋
  let r := x - f
  if r < 1/2 then f
  else if 1/2 < r then f + 1
  else if f % 2 = 0 then f else f + 1

/-- Python `round(x, 3)`. -/
def pyRound3 (x : ℚ) : ℚ :=
  (roundHalfEven (x * 1000) : ℚ) / 1000

/-- The dict returned by `analyse_response` (scores stored into
self_awareness_log by `record`). -/
structure AwarenessScores where
  self_ref_score : ℚ
  uncertainty_score : ℚ
  meta_cognition_score : ℚ
  composite_score : ℚ
  word_count : Nat
deriving DecidableEq, Repr

/-- `analyse_response` (self_awareness.py lines 66-96): none models the empty
dict returned for empty input. -/
def analyse_response (response : String) : Option AwarenessScores :=
  if response = "" then none
  else
    let lower := pyLower response
    let word_count := (pyWords lower).length
    if word_count = 0 then none
    else
      let self_refs := SELF_REFERENCE_WORDS.countP (fun w => strIn w lower)
      let uncertainty := UNCERTAINTY_WORDS.countP (fun w => strIn w lower)
      let meta := META_COGNITION_WORDS.countP (fun w => strIn w lower)
      let norm : ℚ := max ((word_count : ℚ) / 100) 1
      let self_ref_score := min ((self_refs : ℚ) / norm) 1
      let uncertainty_score := min ((uncertainty : ℚ) / norm) 1
      let meta_score := min ((meta : ℚ) / norm) 1
      let composite := self_ref_score * 0.4 + uncertainty_score * 0.3 + meta_score * 0.3
      some ⟨pyRound3 self_ref_score, pyRound3 uncertainty_score,
            pyRound3 meta_score, pyRound3 composite, word_count⟩

/-- The spec's reading of a dimension score: the phrase count normalized per
100 words of the response, clamped to [0,1]. -/
def specDimensionScore (count wordCount : Nat) : ℚ :=
  min (max ((100 * count : ℚ) / wordCount) 0) 1

/- ── Goal tracker (src/src/core/goal_tracker.py) ───────────────────────── -/

/-- One row of the goals table (date and milestone columns omitted: no claim
refers to them). -/
structure Goal where
  goal_name : String
  goal_type : String
  current_value : ℚ
  target_value : ℚ
  progress : ℚ
  status : String
deriving DecidableEq, Repr

/-- The per-row body of the `update_progress` loop (goal_tracker.py
lines 108-125): new value, recomputed progress, completion flag. -/
def updateProgressRow (increment : ℚ) (g : Goal) : Goal × Bool :=
  let new_value := min (g.current_value + increment) g.target_value
  let progress := if 0 < g.target_value then new_value / g.target_value * 100 else 0
  let completed := g.target_value ≤ new_value
  ({ g with current_value := new_value, progress := progress,
            status := if completed then "completed" else g.status }, completed)

/-- The hard-coded follow-up goals of `_on_goal_completed` (fallback path,
no LLM model configured). -/
def followupGoal (goal_type : String) : Option Goal :=
  if goal_type == "knowledge" then
    some ⟨"Build a knowledge base of 100 topics", "knowledge", 0, 100, 0, "active"⟩
  else if goal_type == "growth" then
    some ⟨"Have 250 meaningful conversations", "growth", 0, 250, 0, "active"⟩
  else if goal_type == "relationship" then
    some ⟨"Understand the deeper motivations and values of Lyle", "relationship", 0, 5, 0, "active"⟩
  else none

/-- `update_progress(goal_type, increment)` (goal_tracker.py lines 94-130):
the SELECT snapshots the matching active rows, each is updated in place, and
each completion appends the fallback follow-up goal (modelled with no LLM
configured; the system chat-history event is outside the goals table). -/
def update_progress (goal_type : String) (increment : ℚ) (goals : List Goal) : List Goal :=
  let isMatch := fun (g : Goal) => g.goal_type == goal_type && g.status == "active"
  let updated := goals.map (fun g => if isMatch g then (updateProgressRow increment g).1 else g)
  let followups := (goals.filter (fun g => isMatch g && (updateProgressRow increment g).2)).filterMap
    (fun _ => followupGoal goal_type)
  updated ++ followups

/-- `tick_conversation_goals(conversation_count)` (goal_tracker.py
lines 350-366): a single UPDATE that overwrites current_value with the
absolute conversation count; SQLite LIKE is ASCII case-insensitive. -/
def tick_conversation_goals (conversation_count : ℚ) (goals : List Goal) : List Goal :=
  goals.map (fun g =>
    if g.goal_type == "growth" && g.status == "active" &&
        strIn "conversations" (pyLower g.goal_name) then
      { g with current_value := conversation_count,
               progress := min 100 (conversation_count / g.target_value * 100) }
    else g)

/-- `tick_knowledge_goals()` (goal_tracker.py lines 369-384): overwrites
current_value with the knowledge_base row count. -/
def tick_knowledge_goals (kb_count : Nat) (goals : List Goal) : List Goal :=
  goals.map (fun g =>
    if g.goal_type == "knowledge" && g.status == "active" then
      { g with current_value := (kb_count : ℚ),
               progress := min 100 ((kb_count : ℚ) / g.target_value * 100) }
    else g)

/-- `tick_philosophical_goals(journal_entry_count)` (goal_tracker.py
lines 132-167); the follow-up table has no philosophical entry, so
completion appends nothing. -/
def tick_philosophical_goals (journal_entry_count : Nat) (goals : List Goal) : List Goal :=
  let progress := min 100 ((journal_entry_count : ℚ) / 10 * 100)
  let new_value := min 1 ((journal_entry_count : ℚ) / 10)
  goals.map (fun g =>
    if g.goal_type == "philosophical" && g.status == "active" && g.current_value < new_value then
      { g with current_value := new_value, progress := progress,
               status := if 1 ≤ new_value then "completed" else g.status }
    else g)

/-- `tick_personality_goals(conversation_count)` (goal_tracker.py
lines 169-201). -/
def tick_personality_goals (conversation_count : Nat) (goals : List Goal) : List Goal :=
  let progress := min 100 ((conversation_count : ℚ) / 50 * 100)
  let new_value := min 5 ((conversation_count : ℚ) / 50 * 5)
  goals.map (fun g =>
    if g.goal_type == "personality" && g.status == "active" && g.current_value < new_value then
      { g with current_value := new_value, progress := progress,
               status := if 5 ≤ new_value then "completed" else g.status }
    else g)

/- ── Knowledge base rows (src/src/database/schema.py lines 96-105) ─────── -/

/-- One knowledge_base row; the schema has no UNIQUE constraint on topic,
only an index.  Date columns are omitted: no claim refers to them. -/
structure KnowledgeRow where
  topic : String
  content : String
  source : String
  confidence : ℚ
  confirmation_count : Nat
  source_weeks : List Nat
deriving DecidableEq, Repr

/-- One parsed JSON knowledge line of an LLM response (the backend is
external; parsing yields stripped topic/content and a float confidence). -/
structure KnowledgeItem where
  topic : String
  content : String
  confidence : ℚ
deriving DecidableEq, Repr

/-- Nightly `extract_knowledge_from_conversations` per-item insert
(night_consolidation.py lines 128-146): a plain INSERT with no topic
lookup; confirmation_count takes the column default 1. -/
def nightlyInsertFact (acc : List KnowledgeRow × Nat) (item : KnowledgeItem) :
    List KnowledgeRow × Nat :=
  if item.topic ≠ "" && item.content ≠ "" then
    (acc.1 ++ [⟨item.topic, item.content, "night_consolidation", item.confidence, 1, []⟩],
     acc.2 + 1)
  else acc

/-- Confidence boost of `_commit_knowledge` (episodic_memory.py lines
636-645): the first confirmed topic contained in the lowercased item topic
raises confidence by mention count, then the loop breaks. -/
def boostConfidence (confThree confTwice : ℚ) (confirmed : List (String × Nat))
    (topicLower : String) (conf : ℚ) : ℚ :=
  match confirmed.find? (fun ct => strIn ct.1 topicLower) with
  | some ct =>
      if 3 ≤ ct.2 then max conf confThree
      else if ct.2 == 2 then max conf confTwice
      else conf
  | none => conf

/-- Update the first knowledge_base row whose topic matches (the SQL SELECT
... fetchone picks the first row in rowid order, and the UPDATE targets its
id). -/
def updateFirstTopic (topic : String) (f : KnowledgeRow → KnowledgeRow) :
    List KnowledgeRow → List KnowledgeRow
  | [] => []
  | r :: rest =>
      if r.topic == topic then f r :: rest
      else r :: updateFirstTopic topic f rest

/-- Per-item body of the `_commit_knowledge` loop (episodic_memory.py lines
619-691): quality filter, confidence boost, then UPSERT — update the
existing row (confirmation_count + 1, confidence max, week appended) or
insert a fresh row and count it as added. -/
def commitKnowledgeItem (confThree confTwice : ℚ) (confirmed : List (String × Nat))
    (weekN : Nat) (acc : List KnowledgeRow × Nat) (item : KnowledgeItem) :
    List KnowledgeRow × Nat :=
  if (pyWords item.topic).length < 3 || item.topic.length < 12 || item.content.length < 25 then
    acc
  else
    let conf := boostConfidence confThree confTwice confirmed (pyLower item.topic) item.confidence
    if acc.1.any (fun r => r.topic == item.topic) then
      (updateFirstTopic item.topic (fun r =>
        { r with content := item.content,
                 confidence := max r.confidence conf,
                 confirmation_count := r.confirmation_count + 1,
                 source_weeks :=
                   if weekN ∈ r.source_weeks then r.source_weeks
                   else r.source_weeks ++ [weekN] }) acc.1, acc.2)
    else
      (acc.1 ++ [⟨item.topic, item.content, "weekly_consolidation", conf, 1, [weekN]⟩],
       acc.2 + 1)

/- ── Curiosity engine (src/src/core/curiosity_engine.py) ───────────────── -/

/-- Python regex \s (the whitespace class used by the fallback patterns). -/
def isReWS (c : Char) : Bool :=
  c = ' ' || c = '\t' || c = '\n' || c = '\r' || c = '\x0b' || c = '\x0c'

def isLowerAlpha (c : Char) : Bool :=
  'a' ≤ c && c ≤ 'z'

/-- A character the capture group `[a-z\s]` accepts. -/
def isCapChar (c : Char) : Bool :=
  isLowerAlpha c || isReWS c

/-- Python `str.strip()` on a char list. -/
def pyStripChars (l : List Char) : List Char :=
  ((l.dropWhile isReWS).reverse.dropWhile isReWS).reverse

def pyStripStr (s : String) : String :=
  ⟨pyStripChars s.toList⟩

/-- Python `str.rstrip(chars)`. -/
def pyRstrip (chars : List Char) (l : List Char) : List Char :=
  (l.reverse.dropWhile (fun c => chars.contains c)).reverse

/-- The lazy capture `([a-z][a-z\s]{4,35}?)` followed by `(?:\.|,|\?|$)`:
the shortest group length from 5 to 36 whose characters fit the class and
whose next position is a terminator or the end.  Returns the group and the
characters consumed (terminator included when it is a character). -/
def capTry (tail : List Char) : Option (List Char × Nat) :=
  (List.range' 5 32).findSome? (fun L =>
    if L ≤ tail.length && (tail.take L).all isCapChar &&
        (tail.headD ' ' |> isLowerAlpha) then
      match tail.drop L with
      | [] => some (tail.take L, L)
      | c :: _ =>
          if c = '.' || c = ',' || c = '?' then some (tail.take L, L + 1)
          else none
    else none)

/-- Try one fallback pattern at the start of `s`: a literal prefix
alternative, optionally the greedy `[:\s]+` run (pattern 3), then the
capture.  Returns the captured group and the total characters consumed. -/
def tryPattern (prefixes : List (List Char)) (skipColonWS : Bool) (s : List Char) :
    Option (List Char × Nat) :=
  prefixes.findSome? (fun pre =>
    if pre.isPrefixOf s then
      let rest := s.drop pre.length
      if skipColonWS then
        let k := (rest.takeWhile (fun c => c = ':' || isReWS c)).length
        if k = 0 then none
        else (capTry (rest.drop k)).map (fun g => (g.1, pre.length + k + g.2))
      else
        (capTry rest).map (fun g => (g.1, pre.length + g.2))
    else none)

/-- `re.finditer` over the combined text: scan left to right, emit each
match's captured group, resume after the consumed characters. -/
def scanMatches (tryAt : List Char → Option (List Char × Nat)) :
    Nat → List Char → List (List Char)
  | 0, _ => []
  | _, [] => []
  | fuel + 1, c :: t =>
      match tryAt (c :: t) with
      | some g => g.1 :: scanMatches tryAt fuel ((c :: t).drop (max g.2 1))
      | none => scanMatches tryAt fuel t

/-- Prefix alternatives of the three fallback patterns
(curiosity_engine.py lines 123-127). -/
def CURIOUS_ABOUT_PREFIXES : List (List Char) :=
  ["i'm curious about ".toList, "i am curious about ".toList]

def I_WONDER_PREFIXES : List (List Char) :=
  ["i wonder about ".toList, "i wonder why ".toList, "i wonder how ".toList]

def FASCINATING_PREFIXES : List (List Char) :=
  ["fascinating concept".toList, "fascinating idea".toList, "fascinating topic".toList,
   "intriguing concept".toList, "intriguing idea".toList, "intriguing topic".toList]

/-- Fallback path of `extract_curious_topics` (curiosity_engine.py lines
118-137): run the three conservative patterns over the lowercased
`message + " " + response`, post-process each captured group, filter, and
dedup (Python builds `list(set(topics))`, whose order is unspecified; we
keep first occurrences) keeping at most 3. -/
def fallbackExtractTopics (skip_topics : List String) (message response : String) :
    List String :=
  let combined := (pyLower (message ++ " " ++ response)).toList
  let raw :=
    scanMatches (tryPattern CURIOUS_ABOUT_PREFIXES false) combined.length combined ++
    scanMatches (tryPattern I_WONDER_PREFIXES false) combined.length combined ++
    scanMatches (tryPattern FASCINATING_PREFIXES true) combined.length combined
  let topics := raw.filterMap (fun g =>
    let topic : String := ⟨pyRstrip ['.', ',', '!', '?'] (pyStripChars g)⟩
    if 2 ≤ (pyWords topic).length && 10 ≤ topic.length &&
        !(skip_topics.contains (pyLower topic)) then
      some topic
    else none)
  (topics.eraseDups).take 3

/-- One curiosity_queue row (dates omitted; id doubles as insertion order). -/
structure CuriosityItem where
  id : Nat
  topic : String
  priority : ℚ
  reason : String
  status : String
  research_notes : String
deriving DecidableEq, Repr

/-- The curiosity engine's persistent state: the queue plus the in-memory
`_skip_topics` cache (lowercased knowledge_base topics plus queued ones). -/
structure CuriosityState where
  queue : List CuriosityItem
  skip_topics : List String
  nextId : Nat
deriving DecidableEq, Repr

/-- `add_to_queue(topic, reason, priority)` (curiosity_engine.py lines
139-165): the SQL dedup checks pending rows whose LOWER(topic) equals the
lowercased argument; inserts update the skip set. -/
def add_to_queue (st : CuriosityState) (topic reason : String) (priority : ℚ) :
    CuriosityState :=
  if st.queue.any (fun item =>
      pyLower item.topic == pyLower topic && item.status == "pending") then st
  else
    { queue := st.queue ++ [⟨st.nextId, topic, priority, reason, "pending", ""⟩],
      skip_topics := st.skip_topics ++ [pyLower topic],
      nextId := st.nextId + 1 }

/-- `process_exchange(message, response)` with no LLM model available
(curiosity_engine.py lines 167-179): fallback extraction, then queue each
topic with priority 0.6 and the conversation reason string. -/
def process_exchange_fallback (st : CuriosityState) (message response : String) :
    CuriosityState :=
  let topics := fallbackExtractTopics st.skip_topics message response
  topics.foldl (fun st t =>
    add_to_queue st t
      ("Detected curiosity during conversation about: " ++ (⟨message.toList.take 80⟩ : String))
      0.6) st

/-- `mark_researched(topic_id, notes)` (curiosity_engine.py lines 204-215). -/
def mark_researched (topic_id : Nat) (notes : String) (queue : List CuriosityItem) :
    List CuriosityItem :=
  queue.map (fun item =>
    if item.id == topic_id then
      { item with status := "completed", research_notes := notes }
    else item)

/-- Insertion sort by a boolean precedence (used for the SQL ORDER BY
clauses; the claims depend on it only through membership). -/
def insertSorted {α : Type} (le : α → α → Bool) (x : α) : List α → List α
  | [] => [x]
  | y :: t => if le x y then x :: y :: t else y :: insertSorted le x t

def sortByBool {α : Type} (le : α → α → Bool) : List α → List α
  | [] => []
  | x :: t => insertSorted le x (sortByBool le t)

/-- `get_pending_topics(limit)` (curiosity_engine.py lines 181-202):
pending rows ordered by priority DESC then insertion order ASC. -/
def get_pending_topics (limit : Nat) (queue : List CuriosityItem) : List CuriosityItem :=
  (sortByBool (fun a b =>
      b.priority < a.priority || (a.priority == b.priority && a.id ≤ b.id))
    (queue.filter (fun item => item.status == "pending"))).take limit

/- ── Episodic memory (src/src/core/episodic_memory.py) ─────────────────── -/

/-- One episode_summaries row.  Timestamps are modelled at day granularity
(`createdDay`, a day-of-year); the Ollama call and the summary/TOPICS parse
of its response are abstracted as the (summary, topics) parameters of
`summarize_segment`, since the backend is external. -/
structure Episode where
  id : Nat
  createdDay : Nat
  week_number : Nat
  message_range_start : Nat
  message_range_end : Nat
  summary : String
  topics : List String
  importance : ℚ
  committed : Bool
  archived : Bool
deriving DecidableEq, Repr

/-- Keywords that raise an episode's importance to 0.8
(episodic_memory.py lines 240-243). -/
def HIGH_WORDS : List String :=
  ["important", "decided", "remember", "agreed", "critical", "milestone", "named", "chose"]

def episodeImportance (summary : String) : ℚ :=
  if HIGH_WORDS.any (fun w => strIn w (pyLower summary)) then 0.8 else 0.5

/-- `COALESCE(MAX(message_range_end), 0)` over all episode_summaries rows
(episodic_memory.py lines 144-148). -/
def lastCovered (eps : List Episode) : Nat :=
  (eps.map (fun e => e.message_range_end)).foldl max 0

/-- AUTOINCREMENT id for a fresh episode row. -/
def nextEpisodeId (eps : List Episode) : Nat :=
  (eps.map (fun e => e.id)).foldl max 0 + 1

/-- `_summarize_segment(from_id, to_id)` (episodic_memory.py lines 168-257):
fetch the id range from chat_history, return unchanged when empty, else
insert one uncommitted, unarchived episode covering exactly that range. -/
def summarize_segment (chatIds : List Nat) (eps : List Episode) (fromId toId : Nat)
    (summary : String) (topics : List String) (createdDay weekN : Nat) : List Episode :=
  if (chatIds.filter (fun i => fromId ≤ i && i ≤ toId)).isEmpty then eps
  else
    eps ++ [⟨nextEpisodeId eps, createdDay, weekN, fromId, toId, summary, topics,
             episodeImportance summary, false, false⟩]

/-- `check_and_summarize()` (episodic_memory.py lines 128-166): count the
chat_history ids above the highest covered range end; at the threshold,
summarize MIN(id)..MAX(id) of that remainder (the SQL MIN/MAX are NULL on
an empty set, in which case the segment fetch finds no rows). -/
def check_and_summarize (enabled bg : Bool) (everyN : Nat) (chatIds : List Nat)
    (eps : List Episode) (summary : String) (topics : List String)
    (createdDay weekN : Nat) : List Episode :=
  if !enabled || !bg then eps
  else
    let lc := lastCovered eps
    let newIds := chatIds.filter (fun i => lc < i)
    if everyN ≤ newIds.length then
      match newIds.min?, newIds.max? with
      | some mn, some mx => summarize_segment chatIds eps mn mx summary topics createdDay weekN
      | _, _ => eps
    else eps

/- ── Weekly consolidation (src/src/core/episodic_memory.py 360-698) ────── -/

/-- SQLite `strftime` %W for a 2026 date given as a day-of-year: weeks start
on Monday, days before the year's first Monday (Jan 5, day 5) count as week
0.  2026 dates only: Jan 1 2026 is a Thursday. -/
def pctW2026 (d : Nat) : Nat :=
  if d < 5 then 0 else (d - 5) / 7 + 1

/-- Python `datetime.isocalendar()[1]` for a 2026 day-of-year: Jan 1 2026 is
a Thursday, so days 1-4 are ISO week 1 and Monday Jan 5 starts ISO week 2. -/
def isoWeek2026 (d : Nat) : Nat :=
  if d < 5 then 1 else (d - 5) / 7 + 2

/-- One weekly_synthesis row (the synthesis/topics text columns are omitted:
no claim refers to them; week_start is stored as run date minus 7 days). -/
structure WeeklySynthesisRow where
  week_start : Nat
  week_end : Nat
  knowledge_items_added : Nat
deriving DecidableEq, Repr

structure WeeklyState where
  episodes : List Episode
  weekly : List WeeklySynthesisRow
  kb : List KnowledgeRow
deriving DecidableEq, Repr

/-- `should_run_weekly()` (episodic_memory.py lines 362-372): counts
weekly_synthesis rows whose SQLite %W of week_start equals Python's
zero-filled ISO week of today (both are two-digit decimal strings, so
string equality is numeric equality). -/
def should_run_weekly (enabled : Bool) (today : Nat) (s : WeeklyState) : Bool :=
  enabled && (s.weekly.countP (fun r => pctW2026 r.week_start == isoWeek2026 today)) == 0

/-- Topic-frequency dict built by run_weekly_consolidation (lines 412-426);
Python dicts keep first-insertion order. -/
def bumpTopic (acc : List (String × Nat)) (t : String) : List (String × Nat) :=
  if acc.any (fun p => p.1 == t) then
    acc.map (fun p => if p.1 == t then (p.1, p.2 + 1) else p)
  else acc ++ [(t, 1)]

def countTopics (eps : List Episode) : List (String × Nat) :=
  eps.foldl (fun acc e =>
    (e.topics.map (fun t => pyStripStr (pyLower t))).foldl
      (fun acc tl => if tl == "" then acc else bumpTopic acc tl) acc) []

/-- `_commit_knowledge` (episodic_memory.py lines 548-698): returns the
knowledge_base unchanged when no episode carries a confirmed topic, else
folds the parsed LLM fact lines through the UPSERT. -/
def commit_knowledge (confThree confTwice : ℚ) (confirmed : List (String × Nat))
    (weekN : Nat) (episodes : List Episode) (kb : List KnowledgeRow)
    (items : List KnowledgeItem) : List KnowledgeRow × Nat :=
  let relevant := episodes.filter (fun ep =>
    confirmed.any (fun ct => (ep.topics.map pyLower).contains ct.1))
  if relevant.isEmpty then (kb, 0)
  else items.foldl (commitKnowledgeItem confThree confTwice confirmed weekN) (kb, 0)

/-- `run_weekly_consolidation()` (episodic_memory.py lines 374-482): guard,
load the last 7 days' uncommitted episodes, topic frequency, knowledge
commit, one weekly_synthesis row, then mark the processed episodes
committed and archived.  The two Ollama calls are abstracted: the synthesis
text column is omitted and the parsed fact lines are the `items` input. -/
def run_weekly_consolidation (enabled : Bool) (minConfirm : Nat)
    (confThree confTwice : ℚ) (today : Nat) (items : List KnowledgeItem)
    (s : WeeklyState) : WeeklyState :=
  if !(should_run_weekly enabled today s) then s
  else
    let weekAgo := today - 7
    let episodes := s.episodes.filter (fun e => !e.committed && weekAgo ≤ e.createdDay)
    if episodes.isEmpty then s
    else
      let topicCounts := countTopics episodes
      let confirmed := topicCounts.filter (fun tc => minConfirm ≤ tc.2)
      let week_n := isoWeek2026 today
      let ck := commit_knowledge confThree confTwice confirmed week_n episodes s.kb items
      let epIds := episodes.map (fun e => e.id)
      { episodes := s.episodes.map (fun e =>
          if epIds.contains e.id then { e with committed := true, archived := true } else e),
        weekly := s.weekly ++ [⟨today - 7, today, ck.2⟩],
        kb := ck.1 }

/- ── Night consolidation (src/src/core/night_consolidation.py) ─────────── -/

/-- One chat_history row (timestamps at day granularity). -/
structure ChatMsg where
  day : Nat
  role : String
  content : String
  importance : ℚ
  emotional_weight : ℚ
  context_tags : List String
deriving DecidableEq, Repr

/-- One consolidation_log row. -/
structure ConsolidationRun where
  run_date : Nat
  knowledge_items_added : Nat
  journal_entries_written : Nat
  curiosity_topics_processed : Nat
deriving DecidableEq, Repr

/-- The persistent state the nightly pipeline reads and writes. -/
structure NightState where
  chat : List ChatMsg
  kb : List KnowledgeRow
  curiosity : CuriosityState
  journal : List String
  snapshots : List Personality
  personality : Personality
  goals : List Goal
  log : List ConsolidationRun
deriving DecidableEq, Repr

/-- `should_run_tonight()` (night_consolidation.py lines 62-73): true when
no consolidation_log row has today's date. -/
def should_run_tonight (today : Nat) (s : NightState) : Bool :=
  s.log.countP (fun r => r.run_date == today) == 0

/-- `extract_knowledge_from_conversations` (night_consolidation.py lines
75-154): today's user/assistant rows (limit 40); when none, no insert;
else every parsed fact line is plain-inserted. -/
def extract_knowledge_from_conversations (today : Nat) (items : List KnowledgeItem)
    (s : NightState) : List KnowledgeRow × Nat :=
  let rows := (s.chat.filter (fun m =>
    today ≤ m.day && (m.role == "user" || m.role == "assistant"))).take 40
  if rows.isEmpty then (s.kb, 0)
  else items.foldl nightlyInsertFact (s.kb, 0)

/-- `process_curiosity_queue` (night_consolidation.py lines 156-211): top 3
pending items; each is marked completed with its research notes (the
per-item LLM response, parameter `notes`) and a 0.4-confidence
knowledge_base row is inserted. -/
def process_curiosity_queue (notes : Nat → String) (cur : CuriosityState)
    (kb : List KnowledgeRow) : CuriosityState × List KnowledgeRow × Nat :=
  let pending := get_pending_topics 3 cur.queue
  pending.foldl (fun acc item =>
    ({ acc.1 with queue := mark_researched item.id (notes item.id) acc.1.queue },
     acc.2.1 ++ [⟨item.topic, notes item.id, "curiosity_research", 0.4, 1, []⟩],
     acc.2.2 + 1))
    (cur, kb, 0)

/-- `run()` (night_consolidation.py lines 237-326): the full nightly
pipeline guarded by `should_run_tonight`.  `dailyWritten`/`philWritten`
model the injected journal system returning a truthy entry. -/
def night_run (today : Nat) (items : List KnowledgeItem) (notes : Nat → String)
    (creativeEnabled philEnabled dailyWritten philWritten : Bool)
    (s : NightState) : NightState :=
  if !(should_run_tonight today s) then s
  else
    let ek := extract_knowledge_from_conversations today items s
    let pc := process_curiosity_queue notes s.curiosity ek.1
    let dailyOk := creativeEnabled && dailyWritten
    let run_count := s.log.length
    let philOk := philEnabled && run_count % 3 == 0 && philWritten
    let journal := s.journal ++ (if dailyOk then ["daily_reflection"] else []) ++
      (if philOk then ["philosophical"] else [])
    let jw := (if dailyOk then 1 else 0) + (if philOk then 1 else 0)
    { chat := s.chat,
      kb := pc.2.1,
      curiosity := pc.1,
      journal := journal,
      snapshots := s.snapshots ++ [s.personality],
      personality := s.personality,
      goals := tick_knowledge_goals pc.2.1.length s.goals,
      log := s.log ++ [⟨today, ek.2, jw, pc.2.2⟩] }

/- ── Conversation core: chat() (src/src/core/ai_engine.py 598-642) ─────── -/

/-- Name-request trigger phrases (ai_engine.py lines 224-233). -/
def NAME_TRIGGERS : List String :=
  ["choose your name", "pick your name", "what is your name",
   "what's your name", "select your name", "choose a name",
   "pick a name", "name yourself", "what should we call you",
   "what do you want to be called", "ready to choose",
   "time to pick", "change your name", "rename yourself"]

def detect_name_request (message : String) : Bool :=
  NAME_TRIGGERS.any (fun t => strIn t (pyLower message))

/-- Scan for the first position where a sub-matcher succeeds; returns the
offset and the matched length. -/
def findMatchFrom (tryAt : List Char → Option Nat) :
    Nat → List Char → Option (Nat × Nat)
  | 0, _ => none
  | fuel + 1, s =>
      match tryAt s with
      | some k => some (0, k)
      | none =>
          match s with
          | [] => none
          | _ :: t => (findMatchFrom tryAt fuel t).map (fun r => (r.1 + 1, r.2))

/-- Literal match at the start of the list. -/
def litMatch (lit : List Char) (s : List Char) : Option Nat :=
  if lit.isPrefixOf s then some lit.length else none

/-- Matches `<<NAME[^>]*>>` at the start of the list. -/
def tagMatch (name : List Char) (s : List Char) : Option Nat :=
  if ('<' :: '<' :: name).isPrefixOf s then
    let rest := s.drop (2 + name.length)
    let k := (rest.takeWhile (fun c => c ≠ '>')).length
    if ['>', '>'].isPrefixOf (rest.drop k) then some (2 + name.length + k + 2)
    else none
  else none

/-- Matches `<<[A-Z_]+[^>]*>>` at the start of the list. -/
def genericTagMatch (s : List Char) : Option Nat :=
  if ['<', '<'].isPrefixOf s then
    let rest := s.drop 2
    let n := (rest.takeWhile (fun c => ('A' ≤ c && c ≤ 'Z') || c = '_')).length
    if n = 0 then none
    else
      let rest2 := rest.drop n
      let k := (rest2.takeWhile (fun c => c ≠ '>')).length
      if ['>', '>'].isPrefixOf (rest2.drop k) then some (2 + n + k + 2) else none
  else none

/-- `re.sub(pattern, '', text)` for a single-piece pattern. -/
def subAll (tryAt : List Char → Option Nat) : Nat → List Char → List Char
  | 0, s => s
  | _, [] => []
  | fuel + 1, c :: t =>
      match tryAt (c :: t) with
      | some k => subAll tryAt fuel ((c :: t).drop (max k 1))
      | none => c :: subAll tryAt fuel t

/-- `re.sub(opener .*? closer, '', text, DOTALL)`: delete from each opener
to the earliest closer; an opener with no closer is left in place. -/
def subPair (tryOpen tryClose : List Char → Option Nat) : Nat → List Char → List Char
  | 0, s => s
  | _, [] => []
  | fuel + 1, c :: t =>
      match tryOpen (c :: t) with
      | some k =>
          let rest := (c :: t).drop (max k 1)
          match findMatchFrom tryClose rest.length rest with
          | some r => subPair tryOpen tryClose fuel (rest.drop (r.1 + r.2))
          | none => c :: subPair tryOpen tryClose fuel t
      | none => c :: subPair tryOpen tryClose fuel t

/-- `_strip_think` (ai_engine.py lines 585-596): strip reasoning blocks and
hallucinated system tags, then whitespace at both ends. -/
def stripThink (text : String) : String :=
  let l0 := text.toList
  let l1 := subPair (litMatch "<think>".toList) (litMatch "</think>".toList) l0.length l0
  let l2 := subPair (tagMatch "LIVE_SEARCH_RESULTS".toList)
    (tagMatch "END_LIVE_SEARCH".toList) l1.length l1
  let l3 := subAll (tagMatch "LIVE_SEARCH_EMPTY".toList) l2.length l2
  let l4 := subPair (tagMatch "LIVE_DATA_START".toList)
    (tagMatch "LIVE_DATA_END".toList) l3.length l3
  let l5 := subAll genericTagMatch l4.length l4
  ⟨pyStripChars l5⟩

/-- The in-memory emotional state dict (ai_engine.py lines 103-111). -/
structure EmotionalState where
  curiosity : ℚ
  satisfaction : ℚ
  frustration : ℚ
  excitement : ℚ
  concern : ℚ
  pride : ℚ
  embarrassment : ℚ
deriving DecidableEq, Repr

def initialEmotionalState : EmotionalState :=
  ⟨0.5, 0.5, 0, 0.5, 0, 0.3, 0⟩

def emotionalAvg (e : EmotionalState) : ℚ :=
  (e.curiosity + e.satisfaction + e.frustration + e.excitement +
   e.concern + e.pride + e.embarrassment) / 7

/-- `update_emotional_state` (ai_engine.py lines 861-873). -/
def update_emotional_state (feedback : Option String) (message : String)
    (e : EmotionalState) : EmotionalState :=
  let e :=
    if feedback == some "positive" then
      { e with satisfaction := min 1 (e.satisfaction + 0.15),
               pride := min 1 (e.pride + 0.10) }
    else if feedback == some "negative" then
      { e with frustration := min 1 (e.frustration + 0.20),
               concern := min 1 (e.concern + 0.15) }
    else e
  let e :=
    if strIn "?" message then { e with curiosity := min 1 (e.curiosity + 0.10) }
    else e
  { e with frustration := max 0 (e.frustration - 0.05),
           embarrassment := max 0 (e.embarrassment - 0.05),
           concern := max 0 (e.concern - 0.05) }

/-- Keyword list of `search_knowledge` (ai_engine.py line 798). -/
def searchKeywords (query : String) : List String :=
  (((pyWords (pyLower query)).filter (fun w => 3 < w.length)).take 5).map
    (fun l => (⟨l⟩ : String))

/-- Topic dedup of `search_knowledge` (first occurrence kept). -/
def dedupByTopic : List KnowledgeRow → List String → List KnowledgeRow
  | [], _ => []
  | r :: t, seen =>
      if seen.contains r.topic then dedupByTopic t seen
      else r :: dedupByTopic t (r.topic :: seen)

/-- `search_knowledge(query, limit)` (ai_engine.py lines 796-822): keyword
LIKE filter, ORDER BY confidence DESC (the last_accessed tiebreak column is
omitted; the claims use only nonemptiness), SQL LIMIT, topic dedup, limit. -/
def search_knowledge (kb : List KnowledgeRow) (query : String) (limit : Nat) :
    List KnowledgeRow :=
  let keywords := searchKeywords query
  if keywords.isEmpty then []
  else
    let rows := (sortByBool (fun a b => b.confidence ≤ a.confidence)
      (kb.filter (fun r => keywords.any (fun kw =>
        strIn kw (pyLower r.topic) || strIn kw (pyLower r.content))))).take limit
    (dedupByTopic rows []).take limit

/-- Hedging markers of `calculate_confidence` (ai_engine.py line 850). -/
def UNCERTAINTY_MARKERS : List String :=
  ["maybe", "perhaps", "might", "could be", "not sure", "uncertain"]

/-- `calculate_confidence` (ai_engine.py lines 843-859). -/
def calculate_confidence (kb : List KnowledgeRow) (mistakes : List String)
    (recentNonempty : Bool) (message response : String) : ℚ :=
  let c : ℚ := 0.5
  let c := if !(search_knowledge kb message 5).isEmpty then c + 0.2 else c
  let c := if recentNonempty then c + 0.1 else c
  let c := if UNCERTAINTY_MARKERS.any (fun m => strIn m (pyLower response)) then c - 0.2 else c
  let c :=
    if ((pyWords (pyLower message)).take 3).any (fun kw =>
        mistakes.any (fun t => strIn (⟨kw⟩ : String) (pyLower t))) then c - 0.3
    else c
  max 0 (min 1 c)

/-- Stop words of `extract_topics` (ai_engine.py line 1087). -/
def STOP_WORDS : List String :=
  ["the", "is", "at", "which", "on", "a", "an", "and", "or", "but", "in", "with", "to", "for"]

/-- `extract_topics` (ai_engine.py lines 1086-1090); Python's `list(set(.))`
order is unspecified, first occurrences are kept. -/
def extract_topics (text : String) : List String :=
  let words := (pyWords (pyLower text)).map (fun l => (⟨l⟩ : String))
  ((words.filter (fun w => !STOP_WORDS.contains w && 3 < w.length)).take 10).eraseDups

/-- High-importance keywords of `calculate_importance` (ai_engine.py 1076). -/
def HIGH_IMPORTANCE : List String :=
  ["important", "remember", "critical", "essential", "never forget"]

/-- `calculate_importance` (ai_engine.py lines 1074-1084); the response
argument of the source is unused by its body. -/
def calculate_importance (e : EmotionalState) (message : String) : ℚ :=
  let imp : ℚ := 0.5
  let imp := if HIGH_IMPORTANCE.any (fun k => strIn k (pyLower message)) then 1 else imp
  let imp := if 0.6 < emotionalAvg e then imp + 0.2 else imp
  let imp := if 200 < message.length then imp + 0.1 else imp
  min 1 imp

/-- The persistent and in-memory state `chat()` can touch. -/
structure ChatState where
  chat : List ChatMsg
  personality : Personality
  history : List PersonalityChange
  emotional : EmotionalState
  conversation_count : Nat
  kb : List KnowledgeRow
  mistakes : List String
deriving DecidableEq, Repr

/-- Result of `chat()`: either the naming branch was taken (that flow is
modelled no further; no claim touches it) or a (response, confidence)
reply. -/
inductive ChatResult where
  | nameSelection : ChatResult
  | reply : String → ℚ → ChatResult
deriving DecidableEq, Repr

/-- `chat(message)` (ai_engine.py lines 598-642).  The LLM call is the
`llm` parameter: `Except.error e` models `ollama.generate` raising with
message e.  The Phase-2 scheduler hook is modelled absent (the source
guards it with `if self.background_scheduler`). -/
def chat (awaitingName autoEvolution : Bool) (speed : ℚ) (feedback : Option String)
    (llm : Except String String) (today : Nat) (message : String) (s : ChatState) :
    ChatResult × ChatState :=
  if detect_name_request message &&
      (awaitingName || strIn "change" (pyLower message) || strIn "rename" (pyLower message)) then
    (ChatResult.nameSelection, s)
  else
    match llm with
    | .error e =>
        (ChatResult.reply ("I apologize, but I encountered an error: " ++ e) 0, s)
    | .ok raw =>
        let response_text := stripThink raw
        let confidence := calculate_confidence s.kb s.mistakes (!s.chat.isEmpty) message response_text
        let e1 := update_emotional_state feedback message s.emotional
        let ev := evolvePersonalityGradually autoEvolution speed s.conversation_count
          message response_text s.personality
        let imp := calculate_importance e1 message
        let ew := emotionalAvg e1
        let tags := extract_topics message
        (ChatResult.reply response_text confidence,
          { chat := s.chat ++
              [⟨today, "user", message, imp, ew, tags⟩,
               ⟨today, "assistant", response_text, imp, ew, tags⟩],
            personality := ev.1,
            history := s.history ++ ev.2,
            emotional := e1,
            conversation_count := s.conversation_count + 1,
            kb := s.kb,
            mistakes := s.mistakes })

/- ════════════════════════════════════════════════════════════════════════
   Helper lemmas
   ════════════════════════════════════════════════════════════════════════ -/

theorem Personality.get_set (p : Personality) (t s : Trait) (v : ℚ) :
    (p.set t v).get s = if s = t then v else p.get s := by
  cases t <;> cases s <;> rfl

theorem clampedNew_bounds (old delta : ℚ) (h0 : 0 ≤ old) (h1 : old ≤ 1) :
    0 ≤ clampedNew old delta ∧ clampedNew old delta ≤ 1 := by
  unfold clampedNew
  by_cases hd : delta < 0
  · rw [if_pos hd]
    by_cases hb : (0.5 : ℚ) < old
    · rw [if_pos hb]
      exact ⟨le_trans (by norm_num) (le_max_left _ _), max_le (by norm_num) (by linarith)⟩
    · rw [if_neg hb]
      exact ⟨le_max_left _ _, max_le (by norm_num) (by linarith)⟩
  · rw [if_neg hd]
    have hd' : 0 ≤ delta := not_lt.mp hd
    exact ⟨le_min (by norm_num) (by linarith), min_le_left _ _⟩

theorem traitRows_append (l₁ l₂ : List PersonalityChange) (t : Trait) :
    traitRows (l₁ ++ l₂) t = traitRows l₁ t ++ traitRows l₂ t := by
  simp [traitRows, List.filter_append]

/-- The fold of `applyChange` over a changes list with distinct keys: values
stay in [0,1], logged rows change their trait, untouched traits keep their
value and rows, and a touched trait gains exactly one row when its value
moved by more than 0.001 and none otherwise. -/
theorem applyFold_spec (speed : ℚ) :
    ∀ (cs : List (Trait × ℚ)) (p : Personality) (hist : List PersonalityChange),
      (cs.map Prod.fst).Nodup →
      (∀ t, 0 ≤ p.get t ∧ p.get t ≤ 1) →
      (∀ t, 0 ≤ (cs.foldl (applyChange speed) (p, hist)).1.get t ∧
          (cs.foldl (applyChange speed) (p, hist)).1.get t ≤ 1) ∧
      (∀ row ∈ (cs.foldl (applyChange speed) (p, hist)).2,
          row ∈ hist ∨ row.oldValue ≠ row.newValue) ∧
      (∀ t, t ∉ cs.map Prod.fst →
          (cs.foldl (applyChange speed) (p, hist)).1.get t = p.get t ∧
          traitRows (cs.foldl (applyChange speed) (p, hist)).2 t = traitRows hist t) ∧
      (∀ t, t ∈ cs.map Prod.fst →
          (traitRows (cs.foldl (applyChange speed) (p, hist)).2 t).length =
            (traitRows hist t).length +
              (if 0.001 < |(cs.foldl (applyChange speed) (p, hist)).1.get t - p.get t|
               then 1 else 0)) := by
  intro cs
  induction cs with
  | nil =>
      intro p hist _ hb
      refine ⟨hb, fun row hr => Or.inl hr, fun t _ => ⟨rfl, rfl⟩, fun t ht => ?_⟩
      simp at ht
  | cons hd rest ih =>
      intro p hist hnd hb
      obtain ⟨t₀, δ⟩ := hd
      rw [List.map_cons, List.nodup_cons] at hnd
      obtain ⟨ht₀, hndr⟩ := hnd
      have hstep : applyChange speed (p, hist) (t₀, δ) =
          (p.set t₀ (clampedNew (p.get t₀) δ),
           if 0.001 < |clampedNew (p.get t₀) δ - p.get t₀| then
             hist ++ [⟨t₀, p.get t₀, clampedNew (p.get t₀) δ, reasonFor speed δ⟩]
           else hist) := rfl
      rw [List.foldl_cons, hstep]
      set old := p.get t₀ with hold
      set newv := clampedNew old δ with hnewv
      set p1 := p.set t₀ newv with hp1
      set h1 := (if 0.001 < |newv - old| then
        hist ++ [(⟨t₀, old, newv, reasonFor speed δ⟩ : PersonalityChange)] else hist) with hh1
      have hb1 : ∀ t, 0 ≤ p1.get t ∧ p1.get t ≤ 1 := by
        intro t
        rw [hp1, Personality.get_set]
        by_cases h : t = t₀
        · rw [if_pos h]
          exact clampedNew_bounds old δ (hb t₀).1 (hb t₀).2
        · rw [if_neg h]
          exact hb t
      obtain ⟨IH1, IH2, IH3, IH4⟩ := ih p1 h1 hndr hb1
      have hrows1 : ∀ t, t ≠ t₀ → traitRows h1 t = traitRows hist t := by
        intro t ht
        rw [hh1]
        by_cases hc : 0.001 < |newv - old|
        · rw [if_pos hc, traitRows_append]
          have hbe : (t₀ == t) = false := beq_eq_false_iff_ne.mpr fun he => ht he.symm
          have hrow : traitRows [(⟨t₀, old, newv, reasonFor speed δ⟩ : PersonalityChange)] t = [] := by
            simp [traitRows, List.filter_cons, hbe]
          rw [hrow, List.append_nil]
        · rw [if_neg hc]
      have hget1 : ∀ t, t ≠ t₀ → p1.get t = p.get t := by
        intro t ht
        rw [hp1, Personality.get_set, if_neg ht]
      refine ⟨IH1, ?_, ?_, ?_⟩
      · -- logged rows change their trait value
        intro row hr
        rcases IH2 row hr with h | h
        · rw [hh1] at h
          by_cases hc : 0.001 < |newv - old|
          · rw [if_pos hc] at h
            rcases List.mem_append.mp h with h | h
            · exact Or.inl h
            · right
              have hne : old ≠ newv := by
                intro he
                rw [← he, sub_self, abs_zero] at hc
                norm_num at hc
              rcases List.mem_singleton.mp h with rfl
              exact hne
          · rw [if_neg hc] at h
            exact Or.inl h
        · exact Or.inr h
      · -- untouched traits
        intro t ht
        rw [List.map_cons, List.mem_cons] at ht
        push_neg at ht
        obtain ⟨ht1, ht2⟩ := ht
        obtain ⟨hg, hr⟩ := IH3 t ht2
        exact ⟨hg.trans (hget1 t ht1), hr.trans (hrows1 t ht1)⟩
      · -- touched traits: exactly one row iff the move exceeds 0.001
        intro t ht
        rw [List.map_cons, List.mem_cons] at ht
        rcases ht with rfl | ht
        · -- the head trait
          obtain ⟨hg, hr⟩ := IH3 t ht₀
          have hgv : (rest.foldl (applyChange speed) (p1, h1)).1.get t = newv := by
            rw [hg, hp1, Personality.get_set, if_pos rfl]
          rw [hr, hgv, hh1]
          by_cases hc : 0.001 < |newv - old|
          · rw [if_pos hc, if_pos hc, traitRows_append]
            have hrow : traitRows [(⟨t, old, newv, reasonFor speed δ⟩ : PersonalityChange)] t =
                [⟨t, old, newv, reasonFor speed δ⟩] := by
              simp [traitRows, List.filter_cons]
            rw [hrow]
            simp
          · rw [if_neg hc, if_neg hc]
            rfl
        · -- a later trait: its start value and prior rows are untouched here
          have htne : t ≠ t₀ := by
            intro he
            rw [he] at ht
            exact ht₀ ht
          have := IH4 t ht
          rw [hrows1 t htne, hget1 t htne] at this
          exact this

/- keys of the changes dict stay distinct -/

theorem setChange_keys (cs : List (Trait × ℚ)) (t : Trait) (v : ℚ) :
    (setChange cs t v).map Prod.fst =
      if cs.any (fun c => c.1 = t) then cs.map Prod.fst
      else cs.map Prod.fst ++ [t] := by
  unfold setChange
  by_cases h : cs.any (fun c => decide (c.1 = t))
  · rw [if_pos h, if_pos h, List.map_map]
    apply List.map_congr_left
    intro c _
    by_cases hc : c.1 = t
    · simp [hc]
    · simp [hc]
  · rw [if_neg h, if_neg h, List.map_append]
    rfl

theorem setChange_keys_nodup (cs : List (Trait × ℚ)) (t : Trait) (v : ℚ)
    (h : (cs.map Prod.fst).Nodup) : ((setChange cs t v).map Prod.fst).Nodup := by
  rw [setChange_keys]
  by_cases hc : cs.any (fun c => decide (c.1 = t))
  · rw [if_pos hc]; exact h
  · rw [if_neg hc]
    have ht : t ∉ cs.map Prod.fst := by
      intro hmem
      apply hc
      rw [List.any_eq_true]
      obtain ⟨c, hc', rfl⟩ := List.mem_map.mp hmem
      exact ⟨c, hc', by simp⟩
    rw [List.nodup_append]
    refine ⟨h, List.nodup_singleton t, fun x hx hx' => ?_⟩
    rcases List.mem_singleton.mp hx' with rfl
    exact ht hx

theorem passiveStep_keys_nodup (cs : List (Trait × ℚ)) (t : Trait)
    (bs : List (Bool × ℚ)) (h : (cs.map Prod.fst).Nodup) :
    ((passiveStep cs t bs).map Prod.fst).Nodup := by
  unfold passiveStep
  by_cases hc : hasChange cs t
  · rw [if_pos hc]; exact h
  · rw [if_neg hc]
    cases bs.find? (fun b => b.1) with
    | none => exact h
    | some b => exact setChange_keys_nodup cs t b.2 h

theorem explicitFold_keys_nodup (delta : ℚ) (msg : String) :
    ∀ (table : List (Trait × List String)) (cs : List (Trait × ℚ)),
      (cs.map Prod.fst).Nodup → ((explicitFold delta msg table cs).map Prod.fst).Nodup := by
  intro table
  induction table with
  | nil => intro cs h; exact h
  | cons td rest ih =>
      intro cs h
      rw [explicitFold, List.foldl_cons]
      have hfold : ∀ b, List.foldl (fun cs td =>
          if td.2.any (fun ph => strIn ph msg) then setChange cs td.1 delta else cs) b rest =
          explicitFold delta msg rest b := fun b => rfl
      rw [hfold]
      apply ih
      by_cases hb : td.2.any (fun ph => strIn ph msg)
      · rw [if_pos hb]; exact setChange_keys_nodup cs td.1 delta h
      · rw [if_neg hb]; exact h

theorem evolveChanges_keys_nodup (speed : ℚ) (conversationCount : Nat)
    (message response : String) :
    ((evolveChanges speed conversationCount message response).map Prod.fst).Nodup := by
  unfold evolveChanges
  apply passiveStep_keys_nodup
  apply passiveStep_keys_nodup
  apply passiveStep_keys_nodup
  apply passiveStep_keys_nodup
  apply passiveStep_keys_nodup
  apply passiveStep_keys_nodup
  apply passiveStep_keys_nodup
  apply explicitFold_keys_nodup
  apply explicitFold_keys_nodup
  exact List.nodup_nil

/- ════════════════════════════════════════════════════════════════════════
   C2 — personality trait mutations
   ════════════════════════════════════════════════════════════════════════ -/

/-- C2 counterexample: with verbosity at 0.7, speed 0.02 and a message with
no triggers on a decade conversation count, the evolve step mutates the
stored verbosity value (0.7 to 0.6995, a decay of half of speed times 0.05)
yet writes no personality_history row at all, because the 0.001 logging
threshold swallows it — refuting "there is no mutation of a stored trait
value that leaves zero history rows". -/
theorem evolve_mutation_without_history_row :
    ((evolvePersonalityGradually true 0.02 0 "hello there my friend" "ok"
        { seedPersonality with verbosity := 0.7 }).1).verbosity ≠ (0.7 : ℚ) ∧
    (evolvePersonalityGradually true 0.02 0 "hello there my friend" "ok"
        { seedPersonality with verbosity := 0.7 }).2 = [] := by
  with_unfolding_all decide

/-- C2 (amended): every trait value stored by the evolve step stays in
[0,1]; every personality_history row it writes has old distinct from new;
each trait gets at most one row per evolve call; and a trait whose stored
value moved by more than the 0.001 logging threshold gets exactly one row.
(Mutations of at most 0.001 update the stored value with no row.) -/
theorem evolve_trait_bounds_and_history (autoEvolution : Bool) (speed : ℚ)
    (conversationCount : Nat) (message response : String) (p : Personality)
    (hp : ∀ t, 0 ≤ p.get t ∧ p.get t ≤ 1) :
    (∀ t, 0 ≤ (evolvePersonalityGradually autoEvolution speed conversationCount
        message response p).1.get t ∧
      (evolvePersonalityGradually autoEvolution speed conversationCount
        message response p).1.get t ≤ 1) ∧
    (∀ row ∈ (evolvePersonalityGradually autoEvolution speed conversationCount
        message response p).2, row.oldValue ≠ row.newValue) ∧
    (∀ t, (traitRows (evolvePersonalityGradually autoEvolution speed conversationCount
        message response p).2 t).length ≤ 1) ∧
    (∀ t, (evolvePersonalityGradually autoEvolution speed conversationCount
          message response p).1.get t ≠ p.get t →
      0.001 < |(evolvePersonalityGradually autoEvolution speed conversationCount
          message response p).1.get t - p.get t| →
      (traitRows (evolvePersonalityGradually autoEvolution speed conversationCount
          message response p).2 t).length = 1) := by
  unfold evolvePersonalityGradually
  cases autoEvolution with
  | false =>
      rw [if_pos (show (!false) = true from rfl)]
      refine ⟨hp, ?_, ?_, ?_⟩
      · intro row hr; cases hr
      · intro t
        show (traitRows [] t).length ≤ 1
        simp [traitRows]
      · intro t hne _
        exact absurd rfl hne
  | true =>
      rw [if_neg (show ¬((!true) = true) by simp)]
      obtain ⟨A, B, C, D⟩ := applyFold_spec speed
        (evolveChanges speed conversationCount message response) p []
        (evolveChanges_keys_nodup speed conversationCount message response) hp
      refine ⟨A, ?_, ?_, ?_⟩
      · intro row hr
        rcases B row hr with h | h
        · cases h
        · exact h
      · intro t
        by_cases ht : t ∈ (evolveChanges speed conversationCount message response).map Prod.fst
        · rw [D t ht]
          have hnil : traitRows ([] : List PersonalityChange) t = [] := rfl
          rw [hnil]
          simp only [List.length_nil, Nat.zero_add]
          split <;> omega
        · rw [(C t ht).2]
          simp [traitRows]
      · intro t hne habs
        by_cases ht : t ∈ (evolveChanges speed conversationCount message response).map Prod.fst
        · rw [D t ht, if_pos habs]
          rfl
        · exact absurd (C t ht).1 hne

/-- C2 witness: the amended theorem applied at the seed personality and the
message of scenario S1. -/
theorem evolve_trait_bounds_and_history_witness :
    (∀ t, 0 ≤ seedPersonality.get t ∧ seedPersonality.get t ≤ 1) ∧
    ((∀ t, 0 ≤ (evolvePersonalityGradually true 0.02 0
        "be more concise" "Sure." seedPersonality).1.get t ∧
      (evolvePersonalityGradually true 0.02 0
        "be more concise" "Sure." seedPersonality).1.get t ≤ 1) ∧
    (∀ row ∈ (evolvePersonalityGradually true 0.02 0
        "be more concise" "Sure." seedPersonality).2, row.oldValue ≠ row.newValue) ∧
    (∀ t, (traitRows (evolvePersonalityGradually true 0.02 0
        "be more concise" "Sure." seedPersonality).2 t).length ≤ 1) ∧
    (∀ t, (evolvePersonalityGradually true 0.02 0
          "be more concise" "Sure." seedPersonality).1.get t ≠ seedPersonality.get t →
      0.001 < |(evolvePersonalityGradually true 0.02 0
          "be more concise" "Sure." seedPersonality).1.get t - seedPersonality.get t| →
      (traitRows (evolvePersonalityGradually true 0.02 0
          "be more concise" "Sure." seedPersonality).2 t).length = 1)) :=
  ⟨by with_unfolding_all decide,
   evolve_trait_bounds_and_history true 0.02 0 "be more concise" "Sure." seedPersonality
     (by with_unfolding_all decide)⟩

/- ════════════════════════════════════════════════════════════════════════
   C4 — explicit personality push scenario
   ════════════════════════════════════════════════════════════════════════ -/

/-- C4: with all ten traits seeded at 0.5 and evolution speed 0.02, the user
message "be more concise" with response "Sure." hits the EXPLICIT_DOWN
verbosity phrase "concise": the stored verbosity drops by 3 times the speed
to 0.44, and exactly one personality_history row is written for verbosity,
from 0.5 to 0.44, tagged as an explicit user instruction. -/
theorem evolve_explicit_concise_push :
    ((evolvePersonalityGradually true 0.02 0 "be more concise" "Sure." seedPersonality).1).verbosity
        = 0.44 ∧
    traitRows (evolvePersonalityGradually true 0.02 0 "be more concise" "Sure." seedPersonality).2
        Trait.verbosity =
      [⟨Trait.verbosity, 0.5, 0.44, ChangeReason.explicitInstruction⟩] := by
  with_unfolding_all decide

/- ════════════════════════════════════════════════════════════════════════
   C9 — curiosity dedup (scenario S4)
   ════════════════════════════════════════════════════════════════════════ -/

/-- C9: calling the curiosity engine's exchange processing twice back to
back with the message of scenario S4 and no LLM available leaves exactly
one curiosity_queue row, for "reconstructive memory neuroscience", with
status pending (the whole queue holds exactly that one row); and even a
direct second `add_to_queue` of the same topic is a no-op, suppressed by
the lowercase-topic dedup among pending rows. -/
theorem curiosity_fallback_dedup :
    ((process_exchange_fallback
        (process_exchange_fallback ⟨[], [], 0⟩
          "I'm curious about reconstructive memory neuroscience" "")
        "I'm curious about reconstructive memory neuroscience" "").queue.filter
      (fun item => pyLower item.topic == "reconstructive memory neuroscience" &&
        item.status == "pending")).length = 1 ∧
    (process_exchange_fallback
        (process_exchange_fallback ⟨[], [], 0⟩
          "I'm curious about reconstructive memory neuroscience" "")
        "I'm curious about reconstructive memory neuroscience" "").queue.length = 1 ∧
    add_to_queue
        (process_exchange_fallback ⟨[], [], 0⟩
          "I'm curious about reconstructive memory neuroscience" "")
        "Reconstructive Memory Neuroscience" "another reason" 0.6 =
      process_exchange_fallback ⟨[], [], 0⟩
        "I'm curious about reconstructive memory neuroscience" "" := by
  with_unfolding_all decide

/- ════════════════════════════════════════════════════════════════════════
   C3 — weekly synthesis once per ISO week (the guard is broken)
   ════════════════════════════════════════════════════════════════════════ -/

/-- C3 failing input evaluated: 2026-10-12 is day 285 of 2026, ISO week 42.
A first weekly run consumes the only uncommitted episode and stores one
weekly_synthesis row — but `should_run_weekly` still answers true right
after (its SQLite %W of week_start, the run date minus 7 days, can never
equal Python's ISO week of today), so a second run in the same ISO week
with one new uncommitted episode inserts a second weekly_synthesis row. -/
theorem weekly_synthesis_guard_broken :
    let ep1 : Episode := ⟨1, 285, 42, 1, 20, "s", [], 0.5, false, false⟩
    let ep2 : Episode := ⟨2, 285, 42, 21, 40, "s2", [], 0.5, false, false⟩
    let s1 := run_weekly_consolidation true 2 0.85 0.65 285 [] ⟨[ep1], [], []⟩
    isoWeek2026 285 = 42 ∧
    s1.weekly.length = 1 ∧
    should_run_weekly true 285 s1 = true ∧
    (run_weekly_consolidation true 2 0.85 0.65 285 []
        { s1 with episodes := s1.episodes ++ [ep2] }).weekly.length = 2 := by
  with_unfolding_all decide

/- ════════════════════════════════════════════════════════════════════════
   C8 — night consolidation idempotent per calendar date
   ════════════════════════════════════════════════════════════════════════ -/

theorem night_run_skip (today : Nat) (items : List KnowledgeItem)
    (notes : Nat → String) (c p d ph : Bool) (s : NightState)
    (h : should_run_tonight today s = false) :
    night_run today items notes c p d ph s = s := by
  unfold night_run
  rw [h]
  rfl

theorem night_run_blocks_rerun (today : Nat) (items : List KnowledgeItem)
    (notes : Nat → String) (c p d ph : Bool) (s : NightState)
    (h : should_run_tonight today s = true) :
    should_run_tonight today (night_run today items notes c p d ph s) = false := by
  unfold night_run
  rw [h]
  show should_run_tonight today
    { chat := s.chat, kb := _, curiosity := _, journal := _, snapshots := _,
      personality := s.personality, goals := _,
      log := s.log ++ [⟨today, _, _, _⟩] } = false
  unfold should_run_tonight
  simp [List.countP_append, List.countP_cons]

/-- C8: running the night consolidation pipeline a second time on the same
calendar date — whatever the LLM returns that time — changes nothing: no
knowledge extraction, no curiosity processing, no journal entries, no
personality snapshot, no goal tick, and no second consolidation_log row. -/
theorem night_consolidation_once_per_date (today : Nat)
    (items1 items2 : List KnowledgeItem) (notes1 notes2 : Nat → String)
    (c1 p1 d1 ph1 c2 p2 d2 ph2 : Bool) (s : NightState) :
    night_run today items2 notes2 c2 p2 d2 ph2
        (night_run today items1 notes1 c1 p1 d1 ph1 s) =
      night_run today items1 notes1 c1 p1 d1 ph1 s := by
  cases hrun : should_run_tonight today s with
  | false =>
      rw [night_run_skip today items1 notes1 c1 p1 d1 ph1 s hrun,
        night_run_skip today items2 notes2 c2 p2 d2 ph2 s hrun]
  | true =>
      exact night_run_skip today items2 notes2 c2 p2 d2 ph2 _
        (night_run_blocks_rerun today items1 notes1 c1 p1 d1 ph1 s hrun)

/- ════════════════════════════════════════════════════════════════════════
   C10 — chat() on an LLM error
   ════════════════════════════════════════════════════════════════════════ -/

theorem infixOf_self (p : List Char) : infixOf p p = true := by
  cases p with
  | nil => rfl
  | cons c t =>
      show (List.isPrefixOf (c :: t) (c :: t) || infixOf (c :: t) t) = true
      rw [Bool.or_eq_true]
      left
      rw [List.isPrefixOf_iff_prefix]

theorem infixOf_append_self (p : List Char) : ∀ l, infixOf p (l ++ p) = true := by
  intro l
  induction l with
  | nil => exact infixOf_self p
  | cons c t ih =>
      show (List.isPrefixOf p (c :: (t ++ p)) || infixOf p (t ++ p)) = true
      rw [ih, Bool.or_true]

theorem strIn_append_self (e pre : String) : strIn e (pre ++ e) = true := by
  unfold strIn
  have hl : (pre ++ e).toList = pre.toList ++ e.toList := String.data_append pre e
  rw [hl]
  exact infixOf_append_self e.toList pre.toList

/-- C10: when the LLM backend call inside chat() raises, chat() swallows the
exception and returns the apology string carrying the error text with
confidence 0.0; the persistent state is returned exactly as it was — no
chat_history rows, no personality change, no emotional update, no counter
increment (every side effect sits after the LLM call in the same try
block).  The hypothesis excludes the name-selection branch, which returns
before any LLM chat call. -/
theorem chat_llm_error_keeps_state (awaitingName autoEvolution : Bool) (speed : ℚ)
    (feedback : Option String) (e : String) (today : Nat) (message : String)
    (s : ChatState)
    (h : (detect_name_request message &&
      (awaitingName || strIn "change" (pyLower message) ||
        strIn "rename" (pyLower message))) = false) :
    chat awaitingName autoEvolution speed feedback (Except.error e) today message s =
      (ChatResult.reply ("I apologize, but I encountered an error: " ++ e) 0, s) ∧
    strIn e ("I apologize, but I encountered an error: " ++ e) = true := by
  constructor
  · unfold chat
    rw [h]
    rfl
  · exact strIn_append_self e "I apologize, but I encountered an error: "

/-- C10 witness: a concrete chat state and the message "hello there" with a
failing backend. -/
theorem chat_llm_error_keeps_state_witness :
    ((detect_name_request "hello there" &&
      (false || strIn "change" (pyLower "hello there") ||
        strIn "rename" (pyLower "hello there"))) = false) ∧
    (chat false true 0.02 none (Except.error "connection refused") 1 "hello there"
        ⟨[], seedPersonality, [], initialEmotionalState, 0, [], []⟩ =
      (ChatResult.reply ("I apologize, but I encountered an error: " ++ "connection refused") 0,
        ⟨[], seedPersonality, [], initialEmotionalState, 0, [], []⟩) ∧
     strIn "connection refused"
       ("I apologize, but I encountered an error: " ++ "connection refused") = true) :=
  ⟨by with_unfolding_all decide,
   chat_llm_error_keeps_state false true 0.02 none "connection refused" 1 "hello there"
     ⟨[], seedPersonality, [], initialEmotionalState, 0, [], []⟩
     (by with_unfolding_all decide)⟩

/- ════════════════════════════════════════════════════════════════════════
   C7 — self-awareness scoring
   ════════════════════════════════════════════════════════════════════════ -/

/-- The code's score `min (count / max (wc/100) 1) 1` equals the spec's
"count per 100 words, clamped to [0,1]": the floor of 1 on the normalizer
is invisible after clamping. -/
theorem dimension_score_eq (c wc : Nat) (h : 0 < wc) :
    min ((c : ℚ) / max ((wc : ℚ) / 100) 1) 1 = specDimensionScore c wc := by
  unfold specDimensionScore
  have hwc : (0 : ℚ) < (wc : ℚ) := by exact_mod_cast h
  rw [max_eq_left (by positivity : (0 : ℚ) ≤ (100 * c : ℚ) / wc)]
  by_cases hle : (wc : ℚ) / 100 ≤ 1
  · rw [max_eq_right hle, div_one]
    rcases Nat.eq_zero_or_pos c with rfl | hc
    · norm_num
    · have h1 : (1 : ℚ) ≤ (c : ℚ) := by exact_mod_cast hc
      have hwle : (wc : ℚ) ≤ 100 := by
        have := (div_le_one (by norm_num : (0 : ℚ) < 100)).mp hle
        linarith
      have h2 : (1 : ℚ) ≤ (100 * c : ℚ) / wc := by
        rw [le_div_iff₀ hwc]
        nlinarith
      rw [min_eq_right h1, min_eq_right h2]
  · push_neg at hle
    rw [max_eq_left (le_of_lt hle), div_div_eq_mul_div, mul_comm (c : ℚ) 100]

/-- C7: for every assistant response with at least one word, the stored
dimension scores are the phrase-set counts normalized per 100 words and
clamped to [0,1] (rounded to the 3-decimal storage precision), and the
stored composite is 0.4 times the self-reference score plus 0.3 times the
uncertainty score plus 0.3 times the meta-cognition score (same storage
rounding). -/
theorem analyse_response_spec (response : String)
    (h : 0 < (pyWords (pyLower response)).length) :
    analyse_response response = some
      { self_ref_score := pyRound3 (specDimensionScore
          (SELF_REFERENCE_WORDS.countP (fun w => strIn w (pyLower response)))
          (pyWords (pyLower response)).length),
        uncertainty_score := pyRound3 (specDimensionScore
          (UNCERTAINTY_WORDS.countP (fun w => strIn w (pyLower response)))
          (pyWords (pyLower response)).length),
        meta_cognition_score := pyRound3 (specDimensionScore
          (META_COGNITION_WORDS.countP (fun w => strIn w (pyLower response)))
          (pyWords (pyLower response)).length),
        composite_score := pyRound3 (
          0.4 * specDimensionScore
            (SELF_REFERENCE_WORDS.countP (fun w => strIn w (pyLower response)))
            (pyWords (pyLower response)).length +
          0.3 * specDimensionScore
            (UNCERTAINTY_WORDS.countP (fun w => strIn w (pyLower response)))
            (pyWords (pyLower response)).length +
          0.3 * specDimensionScore
            (META_COGNITION_WORDS.countP (fun w => strIn w (pyLower response)))
            (pyWords (pyLower response)).length),
        word_count := (pyWords (pyLower response)).length } := by
  have hne : response ≠ "" := by
    intro he
    rw [he] at h
    simp [pyWords, pyLower] at h
  simp only [analyse_response]
  rw [if_neg hne, if_neg (Nat.pos_iff_ne_zero.mp h)]
  rw [dimension_score_eq (SELF_REFERENCE_WORDS.countP (fun w => strIn w (pyLower response)))
      (pyWords (pyLower response)).length h,
    dimension_score_eq (UNCERTAINTY_WORDS.countP (fun w => strIn w (pyLower response)))
      (pyWords (pyLower response)).length h,
    dimension_score_eq (META_COGNITION_WORDS.countP (fun w => strIn w (pyLower response)))
      (pyWords (pyLower response)).length h]
  congr 2
  ring_nf

/-- C7 witness: the theorem applied at a concrete 7-word response. -/
theorem analyse_response_spec_witness :
    0 < (pyWords (pyLower "I think perhaps I am learning something")).length ∧
    analyse_response "I think perhaps I am learning something" = some
      { self_ref_score := pyRound3 (specDimensionScore
          (SELF_REFERENCE_WORDS.countP (fun w => strIn w
            (pyLower "I think perhaps I am learning something")))
          (pyWords (pyLower "I think perhaps I am learning something")).length),
        uncertainty_score := pyRound3 (specDimensionScore
          (UNCERTAINTY_WORDS.countP (fun w => strIn w
            (pyLower "I think perhaps I am learning something")))
          (pyWords (pyLower "I think perhaps I am learning something")).length),
        meta_cognition_score := pyRound3 (specDimensionScore
          (META_COGNITION_WORDS.countP (fun w => strIn w
            (pyLower "I think perhaps I am learning something")))
          (pyWords (pyLower "I think perhaps I am learning something")).length),
        composite_score := pyRound3 (
          0.4 * specDimensionScore
            (SELF_REFERENCE_WORDS.countP (fun w => strIn w
              (pyLower "I think perhaps I am learning something")))
            (pyWords (pyLower "I think perhaps I am learning something")).length +
          0.3 * specDimensionScore
            (UNCERTAINTY_WORDS.countP (fun w => strIn w
              (pyLower "I think perhaps I am learning something")))
            (pyWords (pyLower "I think perhaps I am learning something")).length +
          0.3 * specDimensionScore
            (META_COGNITION_WORDS.countP (fun w => strIn w
              (pyLower "I think perhaps I am learning something")))
            (pyWords (pyLower "I think perhaps I am learning something")).length),
        word_count := (pyWords (pyLower "I think perhaps I am learning something")).length } :=
  ⟨by with_unfolding_all decide,
   analyse_response_spec "I think perhaps I am learning something"
     (by with_unfolding_all decide)⟩

/- ════════════════════════════════════════════════════════════════════════
   C5 — episode ranges never overlap
   ════════════════════════════════════════════════════════════════════════ -/

theorem foldl_max_bounds (l : List Nat) : ∀ a : Nat,
    (∀ x ∈ l, x ≤ l.foldl max a) ∧ a ≤ l.foldl max a := by
  induction l with
  | nil => exact fun a => ⟨fun x hx => absurd hx (List.not_mem_nil x), le_refl a⟩
  | cons y t ih =>
      intro a
      rw [List.foldl_cons]
      refine ⟨?_, le_trans (le_max_left a y) (ih (max a y)).2⟩
      intro x hx
      rcases List.mem_cons.mp hx with rfl | hx'
      · exact le_trans (le_max_right a x) (ih (max a x)).2
      · exact (ih (max a y)).1 x hx'

theorem mem_le_lastCovered (eps : List Episode) (e : Episode) (he : e ∈ eps) :
    e.message_range_end ≤ lastCovered eps :=
  (foldl_max_bounds (eps.map (fun e => e.message_range_end)) 0).1 _
    (List.mem_map.mpr ⟨e, he, rfl⟩)

/-- C5: if the stored episode summaries have pairwise disjoint message-id
ranges, they still do after a `check_and_summarize` pass, and any episode
it creates starts strictly above the largest message_range_end of all
previously existing summaries (the range selector reads
COALESCE(MAX(message_range_end),0) over the whole table and summarizes only
ids above it). -/
theorem check_and_summarize_disjoint (enabled bg : Bool) (everyN : Nat)
    (chatIds : List Nat) (eps : List Episode) (summary : String)
    (topics : List String) (createdDay weekN : Nat)
    (hdisj : eps.Pairwise (fun a b =>
      a.message_range_end < b.message_range_start ∨
      b.message_range_end < a.message_range_start)) :
    (check_and_summarize enabled bg everyN chatIds eps summary topics createdDay
        weekN).Pairwise (fun a b =>
      a.message_range_end < b.message_range_start ∨
      b.message_range_end < a.message_range_start) ∧
    ∀ e ∈ check_and_summarize enabled bg everyN chatIds eps summary topics createdDay weekN,
      e ∉ eps → lastCovered eps < e.message_range_start := by
  have htriv : eps.Pairwise (fun a b =>
      a.message_range_end < b.message_range_start ∨
      b.message_range_end < a.message_range_start) ∧
      ∀ e ∈ eps, e ∉ eps → lastCovered eps < e.message_range_start :=
    ⟨hdisj, fun e he hne => absurd he hne⟩
  simp only [check_and_summarize]
  split
  · exact htriv
  split
  · split
    · rename_i mn mx heqmn heqmx
      unfold summarize_segment
      split
      · exact htriv
      · have hmn : mn ∈ chatIds.filter (fun i => lastCovered eps < i) :=
          List.min?_mem (fun a b => min_choice a b) heqmn
        have hlt : lastCovered eps < mn :=
          of_decide_eq_true (List.mem_filter.mp hmn).2
        constructor
        · rw [List.pairwise_append]
          refine ⟨hdisj, List.pairwise_singleton _ _, ?_⟩
          intro a ha b hb
          rcases List.mem_singleton.mp hb with rfl
          exact Or.inl (lt_of_le_of_lt (mem_le_lastCovered eps a ha) hlt)
        · intro e he hne
          rcases List.mem_append.mp he with h | h
          · exact absurd h hne
          · rcases List.mem_singleton.mp h with rfl
            exact hlt
    · exact htriv
  · exact htriv

/-- C5 witness: one stored episode covering ids 1..20 and forty chat rows;
the pass creates an episode starting at 21. -/
theorem check_and_summarize_disjoint_witness :
    (([⟨1, 5, 2, 1, 20, "earlier", [], 0.5, false, false⟩] : List Episode).Pairwise
      (fun a b => a.message_range_end < b.message_range_start ∨
        b.message_range_end < a.message_range_start)) ∧
    ((check_and_summarize true true 20 (List.range' 1 40)
        [⟨1, 5, 2, 1, 20, "earlier", [], 0.5, false, false⟩]
        "sum" ["t"] 6 2).Pairwise (fun a b =>
      a.message_range_end < b.message_range_start ∨
      b.message_range_end < a.message_range_start) ∧
    ∀ e ∈ check_and_summarize true true 20 (List.range' 1 40)
        [⟨1, 5, 2, 1, 20, "earlier", [], 0.5, false, false⟩] "sum" ["t"] 6 2,
      e ∉ ([⟨1, 5, 2, 1, 20, "earlier", [], 0.5, false, false⟩] : List Episode) →
        lastCovered [⟨1, 5, 2, 1, 20, "earlier", [], 0.5, false, false⟩] <
          e.message_range_start) :=
  ⟨by with_unfolding_all decide,
   check_and_summarize_disjoint true true 20 (List.range' 1 40)
     [⟨1, 5, 2, 1, 20, "earlier", [], 0.5, false, false⟩] "sum" ["t"] 6 2
     (by with_unfolding_all decide)⟩

/- ════════════════════════════════════════════════════════════════════════
   C6 — goal progress accounting
   ════════════════════════════════════════════════════════════════════════ -/

/-- C6 counterexample: the conversation tick does not follow the
min(current + delta, target) formula and never completes a goal — ticking
the 100-conversation goal at count 150 stores current_value 150 (past the
target) and leaves the status active. -/
theorem conversation_tick_breaks_formula :
    (tick_conversation_goals 150
        [⟨"Have 100 meaningful conversations", "growth", 0, 100, 0, "active"⟩]).head? =
      some ⟨"Have 100 meaningful conversations", "growth", 150, 100, 100, "active"⟩ ∧
    (150 : ℚ) ≠ min ((0 : ℚ) + 150) 100 ∧
    (100 : ℚ) ≤ 150 ∧
    "active" ≠ "completed" := by
  with_unfolding_all decide

/-- C6 (amended): the per-type increment `update_progress` does satisfy the
claim — for every active goal of the given type with a positive target, the
stored current value becomes min(previous + increment, target), progress is
recomputed as current / target * 100, and the status flips to completed
exactly when the raw increment reaches the target.  (The conversation and
knowledge ticks instead overwrite current_value with an absolute count and
never complete a goal; the philosophical and personality ticks overwrite it
with a capped monotone value.) -/
theorem update_progress_spec (goal_type : String) (increment : ℚ) (goals : List Goal)
    (i : Nat) (hi : i < goals.length)
    (htype : (goals.get ⟨i, hi⟩).goal_type = goal_type)
    (hstatus : (goals.get ⟨i, hi⟩).status = "active")
    (htarget : 0 < (goals.get ⟨i, hi⟩).target_value) :
    ∃ hj : i < (update_progress goal_type increment goals).length,
      ((update_progress goal_type increment goals).get ⟨i, hj⟩).current_value =
        min ((goals.get ⟨i, hi⟩).current_value + increment)
          (goals.get ⟨i, hi⟩).target_value ∧
      ((update_progress goal_type increment goals).get ⟨i, hj⟩).progress =
        min ((goals.get ⟨i, hi⟩).current_value + increment)
            (goals.get ⟨i, hi⟩).target_value / (goals.get ⟨i, hi⟩).target_value * 100 ∧
      (((update_progress goal_type increment goals).get ⟨i, hj⟩).status = "completed" ↔
        (goals.get ⟨i, hi⟩).target_value ≤
          (goals.get ⟨i, hi⟩).current_value + increment) := by
  set g := goals.get ⟨i, hi⟩ with hg
  have hmatch : (g.goal_type == goal_type && g.status == "active") = true := by
    rw [htype, hstatus]
    simp
  have hlen : i < (update_progress goal_type increment goals).length := by
    unfold update_progress
    rw [List.length_append, List.length_map]
    omega
  refine ⟨hlen, ?_⟩
  have hget : (update_progress goal_type increment goals).get ⟨i, hlen⟩ =
      (updateProgressRow increment g).1 := by
    unfold update_progress
    rw [List.get_append i (by rw [List.length_map]; omega)]
    rw [List.get_map]
    rw [← hg, if_pos hmatch]
  rw [hget]
  unfold updateProgressRow
  refine ⟨rfl, ?_, ?_⟩
  · show (if 0 < g.target_value then
        min (g.current_value + increment) g.target_value / g.target_value * 100 else 0) =
      min (g.current_value + increment) g.target_value / g.target_value * 100
    rw [if_pos htarget]
  · show (if g.target_value ≤ min (g.current_value + increment) g.target_value then
        "completed" else g.status) = "completed" ↔
      g.target_value ≤ g.current_value + increment
    by_cases hc : g.target_value ≤ min (g.current_value + increment) g.target_value
    · rw [if_pos hc]
      simp only [true_iff]
      exact le_trans hc (min_le_left _ _)
    · rw [if_neg hc]
      constructor
      · intro habs
        rw [hstatus] at habs
        exact absurd habs (by decide)
      · intro hle
        exact absurd (le_min hle (le_refl _)) hc

/-- C6 witness: the amended theorem applied to the relationship seed goal at
increment 1. -/
theorem update_progress_spec_witness :
    (([⟨"Learn about Xeeker", "relationship", 3, 10, 30, "active"⟩] : List Goal).get
        ⟨0, by decide⟩).goal_type = "relationship" ∧
    (([⟨"Learn about Xeeker", "relationship", 3, 10, 30, "active"⟩] : List Goal).get
        ⟨0, by decide⟩).status = "active" ∧
    0 < (([⟨"Learn about Xeeker", "relationship", 3, 10, 30, "active"⟩] : List Goal).get
        ⟨0, by decide⟩).target_value ∧
    ∃ hj : 0 < (update_progress "relationship" 1
        [⟨"Learn about Xeeker", "relationship", 3, 10, 30, "active"⟩]).length,
      ((update_progress "relationship" 1
          [⟨"Learn about Xeeker", "relationship", 3, 10, 30, "active"⟩]).get
        ⟨0, hj⟩).current_value =
        min ((3 : ℚ) + 1) 10 ∧
      ((update_progress "relationship" 1
          [⟨"Learn about Xeeker", "relationship", 3, 10, 30, "active"⟩]).get
        ⟨0, hj⟩).progress = min ((3 : ℚ) + 1) 10 / 10 * 100 ∧
      (((update_progress "relationship" 1
          [⟨"Learn about Xeeker", "relationship", 3, 10, 30, "active"⟩]).get
        ⟨0, hj⟩).status = "completed" ↔ (10 : ℚ) ≤ 3 + 1) :=
  ⟨rfl, rfl, by with_unfolding_all decide,
   update_progress_spec "relationship" 1
     [⟨"Learn about Xeeker", "relationship", 3, 10, 30, "active"⟩] 0 (by decide)
     rfl rfl (by with_unfolding_all decide)⟩

/- ════════════════════════════════════════════════════════════════════════
   C1 — knowledge facts unique by topic (nightly path breaks it)
   ════════════════════════════════════════════════════════════════════════ -/

/-- C1 counterexample: the nightly knowledge extraction is a plain INSERT
with no topic lookup (and knowledge_base has no UNIQUE constraint): a fact
whose topic already exists produces a second row with the same topic. -/
theorem nightly_extraction_duplicates_topic :
    ((extract_knowledge_from_conversations 10
        [⟨"machine learning fundamentals", "a new fact about the topic", 0.9⟩]
        { chat := [⟨10, "user", "hi", 0.5, 0.3, []⟩],
          kb := [⟨"machine learning fundamentals", "an old fact", "weekly_consolidation",
            0.7, 2, [40]⟩],
          curiosity := ⟨[], [], 0⟩, journal := [], snapshots := [],
          personality := seedPersonality, goals := [], log := [] }).1.filter
      (fun r => r.topic == "machine learning fundamentals")).length = 2 := by
  with_unfolding_all decide

theorem updateFirstTopic_decomp (topic : String) (f : KnowledgeRow → KnowledgeRow) :
    ∀ (kb : List KnowledgeRow), kb.any (fun r => r.topic == topic) = true →
      ∃ pre r post, kb = pre ++ r :: post ∧ (∀ x ∈ pre, x.topic ≠ topic) ∧
        r.topic = topic ∧ updateFirstTopic topic f kb = pre ++ f r :: post := by
  intro kb
  induction kb with
  | nil => intro h; simp at h
  | cons x rest ih =>
      intro h
      by_cases hx : (x.topic == topic) = true
      · refine ⟨[], x, rest, rfl, by simp, by simpa using hx, ?_⟩
        unfold updateFirstTopic
        rw [if_pos hx]
        rfl
      · have h' : rest.any (fun r => r.topic == topic) = true := by
          rcases List.any_eq_true.mp h with ⟨y, hy, hyt⟩
          rcases List.mem_cons.mp hy with rfl | hy'
          · exact absurd hyt hx
          · exact List.any_eq_true.mpr ⟨y, hy', hyt⟩
        obtain ⟨pre, r, post, hkb, hpre, hr, hupd⟩ := ih h'
        refine ⟨x :: pre, r, post, by rw [hkb]; rfl, ?_, hr, ?_⟩
        · intro z hz
          rcases List.mem_cons.mp hz with rfl | hz'
          · intro he
            exact hx (by simp [he])
          · exact hpre z hz'
        · unfold updateFirstTopic
          rw [if_neg hx, hupd]
          rfl

theorem updateFirstTopic_map_topic (topic : String) (f : KnowledgeRow → KnowledgeRow)
    (hf : ∀ r, (f r).topic = r.topic) :
    ∀ kb : List KnowledgeRow,
      (updateFirstTopic topic f kb).map (fun r => r.topic) =
        kb.map (fun r => r.topic) := by
  intro kb
  induction kb with
  | nil => rfl
  | cons x rest ih =>
      unfold updateFirstTopic
      by_cases hx : (x.topic == topic) = true
      · rw [if_pos hx]
        simp [hf]
      · rw [if_neg hx]
        simp only [List.map_cons]
        rw [ih]

/-- C1 (amended): the weekly consolidation path is a genuine topic-keyed
UPSERT — for a quality-passing fact line whose topic already has a row, no
row is added, the first matching row's confirmation_count is incremented by
exactly one and its confidence becomes the max of stored and incoming
(never lower), topic uniqueness is preserved; a fresh topic appends exactly
one new row.  (The nightly extraction path plain-inserts and can duplicate
topics — see the counterexample.) -/
theorem weekly_upsert_spec (confThree confTwice : ℚ) (confirmed : List (String × Nat))
    (weekN : Nat) (kb : List KnowledgeRow) (n : Nat) (item : KnowledgeItem)
    (hq : ((pyWords item.topic).length < 3 || item.topic.length < 12 ||
      item.content.length < 25) = false)
    (hu : (kb.map (fun r => r.topic)).Nodup) :
    (((commitKnowledgeItem confThree confTwice confirmed weekN (kb, n) item).1.map
        (fun r => r.topic)).Nodup) ∧
    (kb.any (fun r => r.topic == item.topic) = true →
      (commitKnowledgeItem confThree confTwice confirmed weekN (kb, n) item).2 = n ∧
      ∃ pre r post, kb = pre ++ r :: post ∧ r.topic = item.topic ∧
        (commitKnowledgeItem confThree confTwice confirmed weekN (kb, n) item).1 =
          pre ++ ({ r with
            content := item.content,
            confidence := max r.confidence (boostConfidence confThree confTwice confirmed
              (pyLower item.topic) item.confidence),
            confirmation_count := r.confirmation_count + 1,
            source_weeks := if weekN ∈ r.source_weeks then r.source_weeks
              else r.source_weeks ++ [weekN] } : KnowledgeRow) :: post ∧
        r.confidence ≤ max r.confidence (boostConfidence confThree confTwice confirmed
          (pyLower item.topic) item.confidence)) ∧
    (kb.any (fun r => r.topic == item.topic) = false →
      (commitKnowledgeItem confThree confTwice confirmed weekN (kb, n) item).1 =
        kb ++ [⟨item.topic, item.content, "weekly_consolidation",
          boostConfidence confThree confTwice confirmed (pyLower item.topic) item.confidence,
          1, [weekN]⟩] ∧
      (commitKnowledgeItem confThree confTwice confirmed weekN (kb, n) item).2 = n + 1) := by
  have hf : ∀ r : KnowledgeRow, (({ r with
      content := item.content,
      confidence := max r.confidence (boostConfidence confThree confTwice confirmed
        (pyLower item.topic) item.confidence),
      confirmation_count := r.confirmation_count + 1,
      source_weeks := if weekN ∈ r.source_weeks then r.source_weeks
        else r.source_weeks ++ [weekN] } : KnowledgeRow)).topic = r.topic :=
    fun r => rfl
  unfold commitKnowledgeItem
  rw [hq]
  by_cases hany : kb.any (fun r => r.topic == item.topic) = true
  · rw [if_neg (by simp), if_pos hany]
    refine ⟨?_, ?_, ?_⟩
    · show ((updateFirstTopic item.topic _ kb).map (fun r => r.topic)).Nodup
      rw [updateFirstTopic_map_topic item.topic _ hf kb]
      exact hu
    · intro _
      obtain ⟨pre, r, post, hkb, _, hr, hupd⟩ := updateFirstTopic_decomp item.topic
        (fun r => { r with
          content := item.content,
          confidence := max r.confidence (boostConfidence confThree confTwice confirmed
            (pyLower item.topic) item.confidence),
          confirmation_count := r.confirmation_count + 1,
          source_weeks := if weekN ∈ r.source_weeks then r.source_weeks
            else r.source_weeks ++ [weekN] }) kb hany
      exact ⟨rfl, pre, r, post, hkb, hr, hupd, le_max_left _ _⟩
    · intro hc
      rw [hany] at hc
      cases hc
  · rw [if_neg (by simp), if_neg hany]
    refine ⟨?_, fun hc => absurd hc hany, fun _ => ⟨rfl, rfl⟩⟩
    rw [List.map_append, List.nodup_append]
    refine ⟨hu, List.nodup_singleton _, fun x hx hx' => ?_⟩
    rcases List.mem_singleton.mp hx' with rfl
    rcases List.mem_map.mp hx with ⟨row, hrow, ht⟩
    have hrow2 : kb.any (fun r => r.topic == item.topic) = true :=
      List.any_eq_true.mpr ⟨row, hrow, by rw [ht]; simp⟩
    exact hany hrow2

/-- C1 witness: a quality-passing upsert of an already-known topic on a
one-row knowledge base. -/
theorem weekly_upsert_spec_witness :
    (((pyWords "machine learning fundamentals").length < 3 ||
      ("machine learning fundamentals" : String).length < 12 ||
      ("a new fact about the machine learning topic" : String).length < 25) = false) ∧
    (([⟨"machine learning fundamentals", "an old fact", "weekly_consolidation",
        0.7, 2, [40]⟩] : List KnowledgeRow).map (fun r => r.topic)).Nodup ∧
    ((((commitKnowledgeItem 0.85 0.65 [("machine learning", 3)] 42
        ([⟨"machine learning fundamentals", "an old fact", "weekly_consolidation",
          0.7, 2, [40]⟩], 5)
        ⟨"machine learning fundamentals", "a new fact about the machine learning topic",
          0.6⟩).1.map (fun r => r.topic)).Nodup) ∧
    (([⟨"machine learning fundamentals", "an old fact", "weekly_consolidation",
        0.7, 2, [40]⟩] : List KnowledgeRow).any
        (fun r => r.topic == "machine learning fundamentals") = true →
      (commitKnowledgeItem 0.85 0.65 [("machine learning", 3)] 42
        ([⟨"machine learning fundamentals", "an old fact", "weekly_consolidation",
          0.7, 2, [40]⟩], 5)
        ⟨"machine learning fundamentals", "a new fact about the machine learning topic",
          0.6⟩).2 = 5 ∧
      ∃ pre r post,
        ([⟨"machine learning fundamentals", "an old fact", "weekly_consolidation",
          0.7, 2, [40]⟩] : List KnowledgeRow) = pre ++ r :: post ∧
        r.topic = "machine learning fundamentals" ∧
        (commitKnowledgeItem 0.85 0.65 [("machine learning", 3)] 42
          ([⟨"machine learning fundamentals", "an old fact", "weekly_consolidation",
            0.7, 2, [40]⟩], 5)
          ⟨"machine learning fundamentals", "a new fact about the machine learning topic",
            0.6⟩).1 =
          pre ++ ({ r with
            content := "a new fact about the machine learning topic",
            confidence := max r.confidence (boostConfidence 0.85 0.65
              [("machine learning", 3)]
              (pyLower "machine learning fundamentals") 0.6),
            confirmation_count := r.confirmation_count + 1,
            source_weeks := if 42 ∈ r.source_weeks then r.source_weeks
              else r.source_weeks ++ [42] } : KnowledgeRow) :: post ∧
        r.confidence ≤ max r.confidence (boostConfidence 0.85 0.65
          [("machine learning", 3)] (pyLower "machine learning fundamentals") 0.6)) ∧
    (([⟨"machine learning fundamentals", "an old fact", "weekly_consolidation",
        0.7, 2, [40]⟩] : List KnowledgeRow).any
        (fun r => r.topic == "machine learning fundamentals") = false →
      (commitKnowledgeItem 0.85 0.65 [("machine learning", 3)] 42
        ([⟨"machine learning fundamentals", "an old fact", "weekly_consolidation",
          0.7, 2, [40]⟩], 5)
        ⟨"machine learning fundamentals", "a new fact about the machine learning topic",
          0.6⟩).1 =
        [⟨"machine learning fundamentals", "an old fact", "weekly_consolidation",
          0.7, 2, [40]⟩] ++
        [⟨"machine learning fundamentals", "a new fact about the machine learning topic",
          "weekly_consolidation",
          boostConfidence 0.85 0.65 [("machine learning", 3)]
            (pyLower "machine learning fundamentals") 0.6, 1, [42]⟩] ∧
      (commitKnowledgeItem 0.85 0.65 [("machine learning", 3)] 42
        ([⟨"machine learning fundamentals", "an old fact", "weekly_consolidation",
          0.7, 2, [40]⟩], 5)
        ⟨"machine learning fundamentals", "a new fact about the machine learning topic",
          0.6⟩).2 = 5 + 1)) :=
  ⟨by with_unfolding_all decide, by with_unfolding_all decide,
   weekly_upsert_spec 0.85 0.65 [("machine learning", 3)] 42
     [⟨"machine learning fundamentals", "an old fact", "weekly_consolidation", 0.7, 2, [40]⟩]
     5 ⟨"machine learning fundamentals", "a new fact about the machine learning topic", 0.6⟩
     (by with_unfolding_all decide) (by with_unfolding_all decide)⟩

end Nexira
